import Mathlib

/-!
Verification development for the mypy/mypyc repository.

Part 1 embeds the semantic-analysis fixpoint scheduler of
`mypy/newsemanal/semanal_main.py` (the functions `semantic_analysis_for_scc`,
`process_top_levels`, `process_functions`, `process_top_level_function` and
`semantic_analyze_target`).

Part 2 embeds the value-representation / code-emission layer of
`mypyc/codegen/emit.py` (`tuple_c_declaration`, `tuple_undefined_check_cond`,
`emit_error_check`, `emit_cast`, `emit_unbox`, `emit_box` and the error-handler
classes) and the generator state-machine builder of
`mypyc/irbuild/generator.py`.

Stateful Python code is modelled by explicit state passing; Python sets are
modelled by lists with set-like operations; emitted C fragments are modelled as
lists of line strings (the indentation bookkeeping of `Emitter.emit_line` is
presentation-only and is not reproduced).
-/

set_option linter.unusedVariables false
set_option autoImplicit false

namespace SemanalMain

/-- `MAX_ITERATIONS` from semanal_main.py: perform up to this many semantic
analysis iterations until giving up trying to bind all names. -/
def MAX_ITERATIONS : Nat := 10

/-- `CORE_WARMUP` from semanal_main.py: number of passes over core modules
before going on to the rest of the builtin SCC. -/
def CORE_WARMUP : Nat := 2

/-- `core_modules` from semanal_main.py. -/
def core_modules : List String := ["typing", "builtins", "abc", "collections"]

/-- Modelled from the spec: one call of `semantic_analyze_target` delegates to
`NewSemanticAnalyzer.refresh_partial` (mypy/newsemanal/semanal.py, not in src).
We model a single analysis of a target as an arbitrary state-threading function
taking the analyzer state, the target id and the `final_iteration` flag, and
returning the new state, whether the target was deferred
(`semantic_analyze_target` returns `[target]` exactly when `analyzer.deferred`
is set) and the analyzer's `incomplete` flag. -/
structure Analyzer (σ : Type) where
  analyze : σ → String → Bool → σ × Bool × Bool

/-- The contract of the real analyzer on the final iteration, modelled from the
spec: "On the last permitted round, force completion: clear all incompleteness
flags so that any remaining unresolved name is now reported as a genuine error
(not a deferral)."  With `final_iteration` set, the analyzer reports errors
instead of deferring, so no target is deferred. -/
def FinalNoDefer {σ : Type} (a : Analyzer σ) : Prop :=
  ∀ s t, (a.analyze s t true).2.1 = false

/-- Events on the shared incomplete-namespaces set
(`state.manager.incomplete_namespaces` / `analyzer.incomplete_namespaces`). -/
inductive NsEvent where
  | update (ids : List String)
  | add (id : String)
  | discard (id : String)
  | clear
deriving DecidableEq, Repr

/-- Result of one round of the inner `while worklist` loop of
`process_top_levels`. -/
structure RoundResult (σ : Type) where
  state : σ
  allDeferred : List String
  incomplete : List String
  events : List NsEvent

/-- The inner `while worklist` loop of `process_top_levels`.  Since
`worklist.pop()` removes the last list element, the targets are processed in
`worklist.reverse` order; `popOrder` is that reversed list.  For each popped
target the loop analyzes it, appends the deferred list to `all_deferred`, and
discards the target's namespace from the incomplete set when the analyzer's
`incomplete` flag is clear. -/
def processRound {σ : Type} (a : Analyzer σ) (final : Bool) :
    σ → List String → List String → RoundResult σ
  | s, [], incomplete => ⟨s, [], incomplete, []⟩
  | s, next_id :: rest, incomplete =>
    let r := a.analyze s next_id final
    let incomplete1 := if r.2.2 then incomplete else incomplete.erase next_id
    let evs := if r.2.2 then ([] : List NsEvent) else [.discard next_id]
    let rec0 := processRound a final r.1 rest incomplete1
    ⟨rec0.state, (if r.2.1 then [next_id] else []) ++ rec0.allDeferred,
      rec0.incomplete, evs ++ rec0.events⟩

/-- Observation of one round of `process_top_levels`: the iteration counter
after the increment, the `final_iteration` flag, the incomplete set when the
round starts (after the clearing on the last permitted round), the order in
which targets were popped off the worklist, and the `all_deferred` list the
round produced. -/
structure RoundTrace where
  iteration : Nat
  finalIteration : Bool
  incompleteAtStart : List String
  processed : List String
  allDeferred : List String
deriving DecidableEq, Repr

/-- Result of `process_top_levels`. -/
structure TopLevelsResult (σ : Type) where
  trace : List RoundTrace
  state : σ
  incomplete : List String
  iterations : Nat
  events : List NsEvent

/-- The outer `while worklist` loop of `process_top_levels`.  Each round
increments `iteration`; at `iteration == MAX_ITERATIONS` the incomplete set is
cleared and the round runs as the final iteration; at
`iteration > MAX_ITERATIONS` the source executes
`assert False, 'Max iteration count reached in semantic analysis'`, modelled as
an `.error` result.  After a round the worklist becomes
`list(reversed(all_deferred))`.  The `fuel` argument only makes the recursion
obviously total; it is set high enough that the `assert` fires first. -/
def processTopLevelsLoop {σ : Type} (a : Analyzer σ) :
    Nat → σ → List String → List String → Nat → List RoundTrace →
    List NsEvent → Except String (TopLevelsResult σ)
  | fuel, s, worklist, incomplete, iteration, trace, events =>
    match worklist with
    | [] => .ok ⟨trace, s, incomplete, iteration, events⟩
    | _ :: _ =>
      match fuel with
      | 0 => .error "out of fuel"
      | fuel' + 1 =>
        let iteration' := iteration + 1
        if iteration' > MAX_ITERATIONS then
          .error "Max iteration count reached in semantic analysis"
        else
          let final := iteration' == MAX_ITERATIONS
          let incomplete0 := if final then [] else incomplete
          let clearEvs := if final then [NsEvent.clear] else []
          let r := processRound a final s worklist.reverse incomplete0
          let tr : RoundTrace :=
            ⟨iteration', final, incomplete0, worklist.reverse, r.allDeferred⟩
          processTopLevelsLoop a fuel' r.state r.allDeferred.reverse
            r.incomplete iteration' (trace ++ [tr]) (events ++ clearEvs ++ r.events)

/-- `process_top_levels` from semanal_main.py.  The ASTs and symbol tables are
prepared by collaborators outside this model; initially all namespaces of the
SCC are added to the incomplete set (`incomplete_namespaces.update(scc)`), and
the worklist starts as `scc[:]`, extended by
`list(reversed(core_modules)) * CORE_WARMUP` when the SCC contains all core
modules. -/
def processTopLevels {σ : Type} (a : Analyzer σ) (s : σ) (scc : List String) :
    Except String (TopLevelsResult σ) :=
  let incomplete := scc
  let worklist :=
    if core_modules.all (fun m => scc.contains m) then
      scc ++ (List.replicate CORE_WARMUP core_modules.reverse).flatten
    else scc
  processTopLevelsLoop a (MAX_ITERATIONS + 1) s worklist incomplete 0 []
    [.update scc]

/-- Result of `process_top_level_function`. -/
structure FuncResult (σ : Type) where
  state : σ
  iterations : Nat
  events : List NsEvent

/-- The `while deferred and more_iterations` loop of
`process_top_level_function`.  `deferredB` and `incompleteB` carry the values
produced by the previous analysis (initially `deferred = [module]`,
`incomplete = True`).  Inside the loop, when the previous round produced
neither deferral nor incompleteness, or the iteration counter reaches
`MAX_ITERATIONS`, this is one last pass: `more_iterations` is cleared and the
module is discarded from the incomplete set so missing names are reported.
After the loop the module is discarded once more. -/
def processTopLevelFunctionLoop {σ : Type} (a : Analyzer σ) (target mod : String) :
    Nat → σ → Nat → Bool → Bool → Bool → List NsEvent → FuncResult σ
  | fuel, s, iteration, moreIterations, deferredB, incompleteB, events =>
    if deferredB && moreIterations then
      match fuel with
      | 0 => ⟨s, iteration, events⟩
      | fuel' + 1 =>
        let iteration' := iteration + 1
        let lastPass := (!(deferredB || incompleteB)) || iteration' == MAX_ITERATIONS
        let more' := if lastPass then false else moreIterations
        let events' := if lastPass then events ++ [NsEvent.discard mod] else events
        let r := a.analyze s target (!more')
        processTopLevelFunctionLoop a target mod fuel' r.1 iteration' more'
          r.2.1 r.2.2 events'
    else
      ⟨s, iteration, events ++ [.discard mod]⟩

/-- `process_top_level_function` from semanal_main.py: analyze a single
top-level function or method again and again until all names are resolved or
the iteration limit is reached.  It starts in the incomplete state: the module
name is added to `analyzer.incomplete_namespaces` before the loop. -/
def processTopLevelFunction {σ : Type} (a : Analyzer σ) (s : σ)
    (mod target : String) : FuncResult σ :=
  processTopLevelFunctionLoop a target mod MAX_ITERATIONS s 0 true true true
    [.add mod]

/-- `process_functions` from semanal_main.py: for each module of the SCC, run
`process_top_level_function` on each of its leaf function targets.  The target
list per module is produced by `get_all_leaf_targets` over the module's symbol
table, which lives in mypy/nodes.py (not in src); it is abstracted as the
`funcTargets` argument. -/
def processFunctions {σ : Type} (a : Analyzer σ) (s : σ) (scc : List String)
    (funcTargets : String → List String) : σ × List NsEvent :=
  scc.foldl
    (fun acc mod =>
      (funcTargets mod).foldl
        (fun acc2 target =>
          let r := processTopLevelFunction a acc2.1 mod target
          (r.state, acc2.2 ++ r.events))
        acc)
    (s, [])

/-- `semantic_analysis_for_scc` from semanal_main.py, observed through the
events it performs on the shared incomplete-namespaces set: it runs
`process_top_levels` and then `process_functions` (the subsequent patch
application, type-argument checks and class-property calculation do not touch
the incomplete set). -/
def semanticAnalysisForSccEvents {σ : Type} (a : Analyzer σ) (s : σ)
    (scc : List String) (funcTargets : String → List String) :
    Except String (List NsEvent) :=
  match processTopLevels a s scc with
  | .error e => .error e
  | .ok r =>
    let f := processFunctions a r.state scc funcTargets
    .ok (r.events ++ f.2)

/-- State of the monotonicity replay over incomplete-set events: the current
set, the identities removed from it so far, and whether some identity was ever
added back after having been removed. -/
structure MonoState where
  current : List String
  removed : List String
  readded : Bool
deriving DecidableEq, Repr

/-- Replay one incomplete-set event, flagging any addition of an identity that
was previously removed from the set. -/
def nsStep (st : MonoState) (e : NsEvent) : MonoState :=
  match e with
  | .update ids =>
    ⟨st.current ++ ids.filter (fun i => !st.current.contains i), st.removed,
      st.readded || ids.any (fun i => st.removed.contains i)⟩
  | .add id =>
    ⟨if st.current.contains id then st.current else st.current ++ [id],
      st.removed, st.readded || st.removed.contains id⟩
  | .discard id =>
    if st.current.contains id then
      ⟨st.current.erase id, st.removed ++ [id], st.readded⟩
    else st
  | .clear => ⟨[], st.removed ++ st.current, st.readded⟩

/-- Replay a whole event list from the empty incomplete set. -/
def nsReplay (events : List NsEvent) : MonoState :=
  events.foldl nsStep ⟨[], [], false⟩

/-- An event list is monotone when no namespace identity is ever added back to
the incomplete set after having been removed from it. -/
def monotoneOk (events : List NsEvent) : Bool :=
  !(nsReplay events).readded

/-- Incomplete-set events that only remove identities. -/
def removalOnly (e : NsEvent) : Bool :=
  match e with
  | .discard _ => true
  | .clear => true
  | _ => false

/-- A round trace is chained when every round after the first pops targets in
exactly the order in which the previous round deferred them. -/
def ChainedTrace : List RoundTrace → Prop
  | t1 :: t2 :: rest => t2.processed = t1.allDeferred ∧ ChainedTrace (t2 :: rest)
  | _ => True

/-- A degenerate analyzer: every target defers and stays incomplete on every
non-final pass (an SCC whose deferrals can never resolve), and reports errors
instead of deferring on the final pass. -/
def alwaysDeferAnalyzer : Analyzer Unit := ⟨fun _ _ final => ((), !final, !final)⟩

/-- An analyzer that completes every target on the first pass. -/
def neverDeferAnalyzer : Analyzer Unit := ⟨fun _ _ _ => ((), false, false)⟩

end SemanalMain

namespace Mypyc

/-! ### Representation types (mypyc/ir/rtypes.py is not in src; the RType
variants and the concrete primitive instances below are modelled from the
spec's ValueRepresentationModel section and from how emit.py consumes them) -/

/-- Modelled from the spec: the RType hierarchy of mypyc/ir/rtypes.py (not in
src).  An `rprimitive` carries its python-level name, its C type, whether it
is unboxed, whether it is reference counted, its `c_undefined` C constant and
its `error_overlap` flag.  An `rinstance` carries the class name and the
result of `all_concrete_classes` (none when subclasses cannot be
enumerated). -/
inductive RType where
  | rprimitive (name ctype : String) (unboxed refcounted : Bool)
      (cundef : String) (overlap : Bool)
  | rtuple (types : List RType)
  | rinstance (className : String) (concrete : Option (List String))
  | runion (items : List RType)

def RType.beq : RType → RType → Bool
  | .rprimitive n c u r cu o, .rprimitive n2 c2 u2 r2 cu2 o2 =>
    n == n2 && c == c2 && u == u2 && r == r2 && cu == cu2 && o == o2
  | .rtuple ts, .rtuple ts2 => go ts ts2
  | .rinstance n c, .rinstance n2 c2 => n == n2 && c == c2
  | .runion ts, .runion ts2 => go ts ts2
  | _, _ => false
where go : List RType → List RType → Bool
  | [], [] => true
  | t :: ts, t2 :: ts2 => t.beq t2 && go ts ts2
  | _, _ => false

/-- Modelled from the spec: the standard primitive instances of rtypes.py
(not in src).  The concrete `c_undefined` constants follow rtypes.py; which
constant is used only matters up to identity. -/
def int_rprimitive : RType :=
  .rprimitive "builtins.int" "CPyTagged" true true "CPY_INT_TAG" false

def short_int_rprimitive : RType :=
  .rprimitive "short_int" "CPyTagged" true true "CPY_INT_TAG" false

def bool_rprimitive : RType :=
  .rprimitive "builtins.bool" "char" true false "2" false

def bit_rprimitive : RType :=
  .rprimitive "bit" "char" true false "2" false

def none_rprimitive : RType :=
  .rprimitive "builtins.None" "char" true false "2" false

def int32_rprimitive : RType :=
  .rprimitive "int32" "int32_t" true false "-113" true

def int64_rprimitive : RType :=
  .rprimitive "int64" "int64_t" true false "-113" true

def float_rprimitive : RType :=
  .rprimitive "builtins.float" "double" true false "-113.0" true

def object_rprimitive : RType :=
  .rprimitive "builtins.object" "PyObject *" false true "NULL" false

def str_rprimitive : RType :=
  .rprimitive "builtins.str" "PyObject *" false true "NULL" false

def bytes_rprimitive : RType :=
  .rprimitive "builtins.bytes" "PyObject *" false true "NULL" false

def list_rprimitive : RType :=
  .rprimitive "builtins.list" "PyObject *" false true "NULL" false

def dict_rprimitive : RType :=
  .rprimitive "builtins.dict" "PyObject *" false true "NULL" false

def set_rprimitive : RType :=
  .rprimitive "builtins.set" "PyObject *" false true "NULL" false

def range_rprimitive : RType :=
  .rprimitive "builtins.range" "PyObject *" false true "NULL" false

def tuple_rprimitive : RType :=
  .rprimitive "builtins.tuple" "PyObject *" false true "NULL" false

/-- Modelled: the `is_..._rprimitive` predicates of rtypes.py (not in src)
recognise a primitive by its name. -/
def isNamedPrim (n : String) : RType → Bool
  | .rprimitive name _ _ _ _ _ => name == n
  | _ => false

def is_list_rprimitive (t : RType) : Bool := isNamedPrim "builtins.list" t
def is_dict_rprimitive (t : RType) : Bool := isNamedPrim "builtins.dict" t
def is_set_rprimitive (t : RType) : Bool := isNamedPrim "builtins.set" t
def is_str_rprimitive (t : RType) : Bool := isNamedPrim "builtins.str" t
def is_range_rprimitive (t : RType) : Bool := isNamedPrim "builtins.range" t
def is_float_rprimitive (t : RType) : Bool := isNamedPrim "builtins.float" t
def is_int_rprimitive (t : RType) : Bool := isNamedPrim "builtins.int" t
def is_short_int_rprimitive (t : RType) : Bool := isNamedPrim "short_int" t
def is_bool_rprimitive (t : RType) : Bool := isNamedPrim "builtins.bool" t
def is_bit_rprimitive (t : RType) : Bool := isNamedPrim "bit" t
def is_none_rprimitive (t : RType) : Bool := isNamedPrim "builtins.None" t
def is_object_rprimitive (t : RType) : Bool := isNamedPrim "builtins.object" t
def is_bytes_rprimitive (t : RType) : Bool := isNamedPrim "builtins.bytes" t
def is_tuple_rprimitive (t : RType) : Bool := isNamedPrim "builtins.tuple" t
def is_int32_rprimitive (t : RType) : Bool := isNamedPrim "int32" t
def is_int64_rprimitive (t : RType) : Bool := isNamedPrim "int64" t

/-- Modelled: `is_fixed_width_rtype` (rtypes.py, not in src) recognises the
fixed-width native int primitives handled by this emit.py version. -/
def is_fixed_width_rtype (t : RType) : Bool :=
  is_int64_rprimitive t || is_int32_rprimitive t

def RType.is_unboxed : RType → Bool
  | .rprimitive _ _ ub _ _ _ => ub
  | .rtuple _ => true
  | _ => false

/-- Modelled from the spec: `RType.error_overlap`.  rtypes.py (not in src)
sets a tuple's error overlap exactly when the tuple is non-empty and every
member has error overlap ("if all member representations have error overlap,
the tuple needs an out-of-band signal"); boxed types never overlap (NULL is
no valid reference). -/
def RType.error_overlap : RType → Bool
  | .rprimitive _ _ _ _ _ ov => ov
  | .rtuple ts => !ts.isEmpty && go ts
  | .rinstance _ _ => false
  | .runion _ => false
where go : List RType → Bool
  | [] => true
  | t :: ts => t.error_overlap && go ts

/-- Modelled: `RTuple.unique_id` / `RTuple.struct_name` (rtypes.py, not in
src) derive a deterministic struct name from the member types; the exact
encoding is immaterial to the claims. -/
def RType.idStr : RType → String
  | .rprimitive n _ _ _ _ _ => "P" ++ n
  | .rtuple ts => "T" ++ go ts
  | .rinstance n _ => "I" ++ n
  | .runion items => "U" ++ go items
where go : List RType → String
  | [] => ""
  | t :: ts => t.idStr ++ go ts

def tupleStructName (ts : List RType) : String :=
  "tuple_T" ++ RType.idStr.go ts

/-- `Emitter.ctype`: `rtype._ctype` (the C type of a tuple is its struct
name; boxed types are `PyObject *`). -/
def RType.ctype : RType → String
  | .rprimitive _ ct _ _ _ _ => ct
  | .rtuple ts => tupleStructName ts
  | .rinstance _ _ => "PyObject *"
  | .runion _ => "PyObject *"

/-- `Emitter.ctype_spaced`: adds a space after ctype for non-pointers (the
source checks whether the last character of the ctype is `*`). -/
def ctypeSpaced (t : RType) : String :=
  let ct := t.ctype
  if ct.data.getLast? == some '*' then ct else ct ++ " "

/-- `Emitter.tuple_undefined_value`: the name of the static undefined-value
struct for a tuple type. -/
def tupleUndefinedValueName (ts : List RType) : String :=
  "tuple_undefined_" ++ RType.idStr.go ts

/-- `Emitter.c_undefined_value` (string level): `NULL` for boxed types, the
primitive's `c_undefined` constant, or the tuple's undefined-struct name.  The
`rinstance`/`runion` fallthroughs are dead (they are boxed). -/
def cUndefinedStr (rtype : RType) : String :=
  if !rtype.is_unboxed then "NULL"
  else match rtype with
    | .rprimitive _ _ _ _ cu _ => cu
    | .rtuple ts => tupleUndefinedValueName ts
    | .rinstance _ _ => "NULL"
    | .runion _ => "NULL"

/-- `Emitter.c_error_value` (string level). -/
def cErrorValueStr (rtype : RType) : String := cUndefinedStr rtype

/-- `Emitter.tuple_undefined_value_helper`: the C initializer fragments of a
tuple's undefined value, member-wise, comma separated, nested tuples in
braces.  The function takes the RTuple itself, as in the source; the
non-tuple fallthrough arm is never reached. -/
def tupleUndefinedValueHelper : RType → List String
  | .rtuple [] => [cUndefinedStr int_rprimitive]
  | .rtuple (t :: ts) => (go (t :: ts)).dropLast
  | t => [cUndefinedStr t]
where go : List RType → List String
  | [] => []
  | t :: ts =>
    (match t with
     | .rtuple _ => ["\x7b "] ++ tupleUndefinedValueHelper t ++ [" \x7d"]
     | _ => [cUndefinedStr t]) ++ [", "] ++ go ts

/-- The field declaration lines inside the struct of
`Emitter.tuple_c_declaration`: one `f{i}` field per member, or the
`empty_struct_error_flag` for the empty tuple. -/
def tupleStructFieldLines (ts : List RType) : List String :=
  if ts.isEmpty then ["int empty_struct_error_flag;"]
  else go ts 0
where go : List RType → Nat → List String
  | [], _ => []
  | t :: ts, i => (ctypeSpaced t ++ "f" ++ toString i ++ ";") :: go ts (i + 1)

/-- `Emitter.tuple_c_declaration`. -/
def tupleCDeclaration (ts : List RType) : List String :=
  let sn := tupleStructName ts
  (["#ifndef MYPYC_DECLARED_" ++ sn,
    "#define MYPYC_DECLARED_" ++ sn,
    "typedef struct " ++ sn ++ " \x7b"]
  ++ tupleStructFieldLines ts
  ++ ["\x7d " ++ sn ++ ";"]
  ++ ["static " ++ RType.ctype (.rtuple ts) ++ " " ++ tupleUndefinedValueName ts
      ++ " = \x7b " ++ String.join (tupleUndefinedValueHelper (.rtuple ts)) ++ " \x7d;"]
  ++ ["#endif", ""])

/-! ### Semantic value model for emitted error checks -/

/-- A runtime python object, as far as the emitted conversions observe it.
Modelled from the spec: the CPython runtime is outside src. -/
inductive PyObj where
  | pyLong (v : Int)
  | pyBool (b : Bool)
  | pyNone
  | pyFloat (v : Int)
  | pyTuple (items : List PyObj)
  | obj (pyType : String) (id : Nat)
  | nullPtr

def PyObj.beq : PyObj → PyObj → Bool
  | .pyLong v, .pyLong w => v == w
  | .pyBool b, .pyBool c => b == c
  | .pyNone, .pyNone => true
  | .pyFloat v, .pyFloat w => v == w
  | .pyTuple xs, .pyTuple ys => go xs ys
  | .obj t i, .obj t2 i2 => t == t2 && i == i2
  | .nullPtr, .nullPtr => true
  | _, _ => false
where go : List PyObj → List PyObj → Bool
  | [], [] => true
  | x :: xs, y :: ys => x.beq y && go xs ys
  | _, _ => false

/-- A raw C value of some representation: the bit pattern of an unboxed
primitive, a pointer to a python object for a boxed representation, or an
unboxed struct of member values. -/
inductive CVal where
  | prim (bits : Int)
  | pobj (o : PyObj)
  | tup (fields : List CVal)

def CVal.beq : CVal → CVal → Bool
  | .prim v, .prim w => v == w
  | .pobj o, .pobj p => PyObj.beq o p
  | .tup fs, .tup gs => go fs gs
  | _, _ => false
where go : List CVal → List CVal → Bool
  | [], [] => true
  | f :: fs, g :: gs => f.beq g && go fs gs
  | _, _ => false

/-- Modelled from the spec: the numeric denotation of the C constants used as
undefined values.  The actual bit patterns live in the C headers outside src;
all that matters is that distinct constants denote distinct values. -/
def cConstDenote (s : String) : Int :=
  if s == "CPY_INT_TAG" then 1
  else if s == "2" then 2
  else if s == "-113" then -113
  else if s == "-113.0" then -1130
  else if s == "NULL" then 0
  else 3

/-- Semantic value of `Emitter.c_undefined_value`: `NULL` for a boxed type,
the denoted `c_undefined` constant for an unboxed primitive, and the static
member-wise undefined struct (`tuple_undefined_value_helper`) for a tuple;
the empty tuple's undefined struct holds one undefined-int flag field. -/
def cUndefinedVal : RType → CVal
  | .rprimitive _ _ unboxed _ cu _ =>
    if unboxed then .prim (cConstDenote cu) else .pobj .nullPtr
  | .rtuple [] => .tup [.prim (cConstDenote "CPY_INT_TAG")]
  | .rtuple (t :: ts) => .tup (go (t :: ts))
  | .rinstance _ _ => .pobj .nullPtr
  | .runion _ => .pobj .nullPtr
where go : List RType → List CVal
  | [] => []
  | t :: ts => cUndefinedVal t :: go ts

def cErrorValue (rtype : RType) : CVal := cUndefinedVal rtype

/-- Reading field `f{i}` (or the `empty_struct_error_flag`, field 0) of a
tuple struct value. -/
def CVal.field : CVal → Nat → CVal
  | .tup fs, i => fs.getD i (.prim 0)
  | v, _ => v

/-- The scan `for i, typ in enumerate(rtuple.types): if not typ.error_overlap:
break` of `Emitter.tuple_undefined_check_cond`, returning the first member
without error overlap together with its index. -/
def findNonOverlap : List RType → Nat → Option (RType × Nat)
  | [], _ => none
  | t :: ts, i =>
    if !t.error_overlap then some (t, i) else findNonOverlap ts (i + 1)

/-- Nesting depth of tuples; used only as recursion fuel for the
check-condition semantics. -/
def rtypeDepth : RType → Nat
  | .rtuple ts => go ts + 1
  | _ => 0
where go : List RType → Nat
  | [] => 0
  | t :: ts => max (rtypeDepth t) (go ts)

/-- Nesting depth of the members of a tuple type. -/
def tupleDepth (ts : List RType) : Nat := rtypeDepth.go ts

/-- Truth value of the condition produced by
`Emitter.tuple_undefined_check_cond` for member list `ts`, evaluated at the
struct value `v`, with `ctcv` the `c_type_compare_val` argument, `cmp` the
`compare` operator, `pyErr` the value of `PyErr_Occurred()` and `ce` the
`check_exception` flag.  The empty tuple compares its
`empty_struct_error_flag` with the undefined int; otherwise the discriminator
member is member 0 when the tuple has error overlap, else the first member
without error overlap; a tuple-typed discriminator is checked recursively
(with `check_exception` defaulting to true), a leaf discriminator is compared
with `ctcv` of its type, adding a `PyErr_Occurred()` conjunct when the tuple
has error overlap and `check_exception` is set.  `fuel` only bounds the
recursion; any `fuel > tupleDepth ts` computes the source's condition. -/
def tupleUndefinedCheckCondAux (ctcv : RType → CVal) (cmp : CVal → CVal → Bool) :
    Nat → Bool → Bool → List RType → CVal → Bool
  | 0, _, _, _, _ => false
  | _ + 1, _, _, [], v => cmp (v.field 0) (ctcv int_rprimitive)
  | fuel + 1, pyErr, ce, t0 :: trest, v =>
    let eo := RType.error_overlap (.rtuple (t0 :: trest))
    let pick := if eo then some (t0, 0) else findNonOverlap (t0 :: trest) 0
    match pick with
    | some (.rtuple ts2, i) =>
      tupleUndefinedCheckCondAux ctcv cmp fuel pyErr true ts2 (v.field i)
    | some (item, i) =>
      let check := cmp (v.field i) (ctcv item)
      if eo && ce then check && pyErr else check
    | none => false

def tupleUndefinedCheckCond (ts : List RType) (v : CVal) (ctcv : RType → CVal)
    (cmp : CVal → CVal → Bool) (pyErr : Bool) (ce : Bool) : Bool :=
  tupleUndefinedCheckCondAux ctcv cmp (tupleDepth ts + 1) pyErr ce ts v

/-- Specification-side reading of the tuple check for the amended claim: the
emitted condition compares exactly the discriminator member chain (member 0
when all members overlap, else the first member without error overlap,
recursively through nested tuples) with that member's designated undefined
value, ignoring every other field. -/
def discrChainAux : Nat → List RType → CVal → Bool
  | 0, _, _ => false
  | _ + 1, [], v => CVal.beq (v.field 0) (cErrorValue int_rprimitive)
  | fuel + 1, t0 :: trest, v =>
    let eo := RType.error_overlap (.rtuple (t0 :: trest))
    let pick := if eo then some (t0, 0) else findNonOverlap (t0 :: trest) 0
    match pick with
    | some (.rtuple ts2, i) => discrChainAux fuel ts2 (v.field i)
    | some (item, i) => CVal.beq (v.field i) (cErrorValue item)
    | none => false

def discrChain (ts : List RType) (v : CVal) : Bool :=
  discrChainAux (tupleDepth ts + 1) ts v

/-- Truth value of the error check emitted by `Emitter.emit_error_check` at
value `v` with `PyErr_Occurred() = pyErr`: for an empty tuple no check is
emitted ("empty tuples can't fail", the condition is never true); for other
tuples the `tuple_undefined_check_cond` condition with `c_error_value` and
`==`; for an error-overlapping type the sentinel comparison conjoined with
`PyErr_Occurred()`; otherwise the bare sentinel comparison. -/
def emitErrorCheckCond (rtype : RType) (v : CVal) (pyErr : Bool) : Bool :=
  match rtype with
  | .rtuple [] => false
  | .rtuple (t :: ts) =>
    tupleUndefinedCheckCond (t :: ts) v cErrorValue CVal.beq pyErr true
  | _ =>
    if rtype.error_overlap then CVal.beq v (cErrorValue rtype) && pyErr
    else CVal.beq v (cErrorValue rtype)

end Mypyc


namespace Mypyc

/-! ### Emitter line model (Emitter.emit_cast / emit_unbox and the error
handlers).  Emitted C code is modelled as the list of `emit_line` fragments;
the indentation bookkeeping of `emit_line` is presentation-only and is
dropped.  The recursion of `emit_cast`/`emit_unbox` into member types is
driven by an explicit fuel counter; `rtypeFuel` computes an amply sufficient
fuel, so the `out of fuel` result never occurs for the wrappers. -/

/-- Modelled: `FAST_ISINSTANCE_MAX_SUBCLASSES` from mypyc/common.py (not in
src). -/
def FAST_ISINSTANCE_MAX_SUBCLASSES : Nat := 50

/-- The emitted fragments (one entry per `emit_line`) together with the
`temp_counter` of the emitter context. -/
structure EmitState where
  lines : List String
  temp : Nat
deriving DecidableEq, Repr

def emitLine (st : EmitState) (l : String) : EmitState :=
  ⟨st.lines ++ [l], st.temp⟩

def emitLines (st : EmitState) (ls : List String) : EmitState :=
  ⟨st.lines ++ ls, st.temp⟩

/-- `Emitter.temp_name`. -/
def tempName (st : EmitState) : EmitState × String :=
  (⟨st.lines, st.temp + 1⟩, "__tmp" ++ toString (st.temp + 1))

/-- `Emitter.new_label`. -/
def newLabel (st : EmitState) : EmitState × String :=
  (⟨st.lines, st.temp + 1⟩, "__LL" ++ toString (st.temp + 1))

/-- `Emitter.emit_label` for a string label (appends `label: ;`). -/
def emitLabel (st : EmitState) (label : String) : EmitState :=
  ⟨st.lines ++ [label ++ ": ;"], st.temp⟩

/-- The `ErrorHandler` hierarchy of emit.py: `AssignHandler` (assign an error
value on error), `GotoHandler` (goto label on error),
`TracebackAndGotoHandler` (add traceback item and goto label on error) and
`ReturnHandler` (return a constant value on error). -/
inductive ErrorHandler where
  | assignHandler
  | gotoHandler (label : String)
  | tracebackAndGotoHandler (label source_path module_name tb_file : String)
      (tb_line : Nat)
  | returnHandler (value : String)
deriving DecidableEq, Repr

/-- Modelled: `str(rtype)` (the repr lives in rtypes.py, not in src); used
for the descriptive names in emitted type errors. -/
def rtypeName : RType → String
  | .rprimitive n _ _ _ _ _ => n
  | .rtuple ts => "tuple[" ++ go ts ++ "]"
  | .rinstance n _ => n
  | .runion items => "union[" ++ go items ++ "]"
where go : List RType → String
  | [] => ""
  | [t] => rtypeName t
  | t :: ts => rtypeName t ++ ", " ++ go ts

/-- Modelled: `optional_value_type` from rtypes.py (not in src): the non-None
member of a two-member union containing None. -/
def optional_value_type : RType → Option RType
  | .runion [a, b] =>
    if RType.beq a none_rprimitive then some b
    else if RType.beq b none_rprimitive then some a
    else none
  | _ => none

/-- Modelled: `is_optional_type` from rtypes.py (not in src). -/
def is_optional_type (t : RType) : Bool := (optional_value_type t).isSome

/-- Modelled: `is_same_type` from mypyc/sametype.py (not in src), as
structural equality of representation types. -/
def is_same_type (a b : RType) : Bool := RType.beq a b

/-- `Emitter.pretty_name`.  For an optional type the source recurses once
into the value type; value types of optionals are never optional themselves,
so a single unfolding is exact. -/
def prettyName (t : RType) : String :=
  match optional_value_type t with
  | some vt => rtypeName vt ++ " or None"
  | none => rtypeName t

/-- Modelled: `Emitter.static_name` with the NameGenerator of
mypyc/namegen.py (not in src): a deterministic C name for a static. -/
def staticName (id : String) (module : String) (pre : String) : String :=
  pre ++ module ++ "___" ++ id

/-- `Emitter.type_struct_name` (TYPE_PREFIX is `CPyType_`). -/
def typeStructName (className : String) : String :=
  "CPyType_" ++ className

/-- `Emitter._emit_traceback`: the single traceback call line (the backslash
doubling of `source_path` is presentation-only and dropped). -/
def emitTracebackLine (func source_path module_name tb_file : String)
    (tb_line : Nat) (type_str src : String) : String :=
  let globals_static := staticName "globals" module_name "CPyStatic_"
  func ++ "(\"" ++ source_path ++ "\", \"" ++ tb_file ++ "\", "
    ++ toString tb_line ++ ", " ++ globals_static
    ++ (if type_str != "" then ", " ++ type_str ++ ", " ++ src else "")
    ++ ");"

/-- `Emitter.emit_cast_error_handler`: with `raise_exception`, a
`TracebackAndGotoHandler` merges raising and the traceback entry into a
single `CPy_TypeErrorTraceback` call followed by the goto; otherwise a
`CPy_TypeError` line is emitted first, and then the handler's own action:
assign NULL, goto the label, assign NULL plus traceback plus goto, or return
the configured value. -/
def emitCastErrorHandler (st : EmitState) (error : ErrorHandler)
    (src dest : String) (typ : RType) (raise_exception : Bool) : EmitState :=
  match raise_exception, error with
  | true, .tracebackAndGotoHandler label sp mn tf tl =>
    let st1 := emitLine st (emitTracebackLine "CPy_TypeErrorTraceback" sp mn tf
      tl ("\"" ++ prettyName typ ++ "\"") src)
    emitLine st1 ("goto " ++ label ++ ";")
  | _, _ =>
    let st1 := if raise_exception then
        emitLine st ("CPy_TypeError(\"" ++ prettyName typ ++ "\", " ++ src
          ++ "); ")
      else st
    match error with
    | .assignHandler => emitLine st1 (dest ++ " = NULL;")
    | .gotoHandler label => emitLine st1 ("goto " ++ label ++ ";")
    | .tracebackAndGotoHandler label sp mn tf tl =>
      let st2 := emitLine st1 (dest ++ " = NULL;")
      let st3 := emitLine st2 (emitTracebackLine "CPy_AddTraceback" sp mn tf tl
        "" "")
      emitLine st3 ("goto " ++ label ++ ";")
    | .returnHandler value => emitLine st1 ("return " ++ value ++ ";")

/-- `Emitter.emit_arg_check`. -/
def emitArgCheck (st : EmitState) (src dest : String) (typ : RType)
    (check : String) (optional : Bool) : EmitState :=
  let st1 := if optional then
      emitLines st ["if (" ++ src ++ " == NULL) \x7b",
        dest ++ " = " ++ cErrorValueStr typ ++ ";"]
    else st
  if check != "" then
    emitLine st1 ((if optional then "\x7d else " else "") ++ "if " ++ check)
  else if optional then emitLine st1 "else \x7b"
  else st1

/-- `Emitter.emit_inc_ref` (with `rare = False`, as at the call sites
modelled here): tagged ints use `CPyTagged_INCREF`, tuples recurse into their
fields, other boxed values use `CPy_INCREF`, unboxed pointerless values are a
no-op. -/
def emitIncRef (st : EmitState) (dest : String) (rtype : RType) : EmitState :=
  if is_int_rprimitive rtype then
    emitLine st ("CPyTagged_INCREF(" ++ dest ++ ");")
  else match rtype with
    | .rtuple ts => goFields st dest ts 0
    | _ =>
      if !rtype.is_unboxed then emitLine st ("CPy_INCREF(" ++ dest ++ ");")
      else st
where goFields : EmitState → String → List RType → Nat → EmitState
  | st, _, [], _ => st
  | st, d, t :: ts, i =>
    goFields (emitIncRef st (d ++ ".f" ++ toString i) t) d ts (i + 1)

/-- The `{prefix}_Check` family selected by the checked-primitive branch of
`Emitter.emit_cast` (none when the branch guard does not match the type). -/
def castCheckName (typ : RType) : Option String :=
  if is_list_rprimitive typ then some "PyList"
  else if is_dict_rprimitive typ then some "PyDict"
  else if is_set_rprimitive typ then some "PySet"
  else if is_str_rprimitive typ then some "PyUnicode"
  else if is_range_rprimitive typ then some "PyRange"
  else if is_float_rprimitive typ then some "CPyFloat"
  else if is_int_rprimitive typ || is_fixed_width_rtype typ then some "PyLong"
  else if is_bool_rprimitive typ || is_bit_rprimitive typ then some "PyBool"
  else none

/-- Amply sufficient recursion fuel for emitting a cast or unbox at a type
(the emit functions descend into member types; fuel is decremented once per
call). -/
def rtypeFuel : RType → Nat
  | .rprimitive _ _ _ _ _ _ => 8
  | .rinstance _ _ => 8
  | .rtuple ts => go ts + 8
  | .runion items => go items + 8
where go : List RType → Nat
  | [] => 8
  | t :: ts => rtypeFuel t + go ts + 8

/-- `Emitter.emit_cast`: emit code for casting `src` into `dest` at type
`typ`.  The `.error` results model the source's `assert` statements
(`assert not optional` for tuple targets and
`assert False, 'Cast not implemented'`).  The where-clauses model
`emit_union_cast` (`unionBody` with its item loop `unionItems`) and
`emit_tuple_cast` (`tupleBody` with its item loop `tupleItems`);
`emit_tuple_cast` receives but never uses its `error` and `src_type`
arguments, exactly as in the source. -/
def emitCastFuel : Nat → EmitState → String → String → RType → Bool →
    ErrorHandler → Bool → Bool → Option RType → Bool →
    Except String EmitState
  | 0, _, _, _, _, _, _, _, _, _, _ => .error "out of fuel"
  | fuel + 1, st, src, dest, typ, declare_dest, error, raise_exception,
      optional, src_type, likely =>
    if (match src_type with
        | some stype =>
          is_optional_type stype && !is_object_rprimitive typ &&
            (match optional_value_type stype with
             | some vt => is_same_type vt typ
             | none => false)
        | none => false) then
      -- special case: casting *from* optional to the same value type
      let st := if declare_dest then emitLine st ("PyObject *" ++ dest ++ ";")
        else st
      let check := "(" ++ src ++ " != Py_None)"
      let check := if likely then "(likely" ++ check ++ ")" else check
      let st := emitArgCheck st src dest typ check optional
      let st := emitLines st ["    " ++ dest ++ " = " ++ src ++ ";",
        "else \x7b"]
      let st := emitCastErrorHandler st error src dest typ raise_exception
      .ok (emitLine st "\x7d")
    else if (castCheckName typ).isSome then
      let fam := (castCheckName typ).getD ""
      let st := if declare_dest then emitLine st ("PyObject *" ++ dest ++ ";")
        else st
      let check := "(" ++ fam ++ "_Check(" ++ src ++ "))"
      let check := if likely then "(likely" ++ check ++ ")" else check
      let st := emitArgCheck st src dest typ check optional
      let st := emitLines st ["    " ++ dest ++ " = " ++ src ++ ";",
        "else \x7b"]
      let st := emitCastErrorHandler st error src dest typ raise_exception
      .ok (emitLine st "\x7d")
    else if is_bytes_rprimitive typ then
      let st := if declare_dest then emitLine st ("PyObject *" ++ dest ++ ";")
        else st
      let check := "(PyBytes_Check(" ++ src ++ ") || PyByteArray_Check(" ++ src
        ++ "))"
      let check := if likely then "(likely" ++ check ++ ")" else check
      let st := emitArgCheck st src dest typ check optional
      let st := emitLines st ["    " ++ dest ++ " = " ++ src ++ ";",
        "else \x7b"]
      let st := emitCastErrorHandler st error src dest typ raise_exception
      .ok (emitLine st "\x7d")
    else if is_tuple_rprimitive typ then
      let st := if declare_dest then
          emitLine st (RType.ctype typ ++ " " ++ dest ++ ";")
        else st
      let check := "(PyTuple_Check(" ++ src ++ "))"
      let check := if likely then "(likely" ++ check ++ ")" else check
      let st := emitArgCheck st src dest typ check optional
      let st := emitLines st ["    " ++ dest ++ " = " ++ src ++ ";",
        "else \x7b"]
      let st := emitCastErrorHandler st error src dest typ raise_exception
      .ok (emitLine st "\x7d")
    else
      match typ with
      | .rinstance cname concrete =>
        let st := if declare_dest then
            emitLine st ("PyObject *" ++ dest ++ ";")
          else st
        let fallback := "(PyObject_TypeCheck(" ++ src ++ ", "
          ++ typeStructName cname ++ "))"
        let check :=
          match concrete with
          | none => fallback
          | some [] => fallback
          | some cs =>
            if cs.length > FAST_ISINSTANCE_MAX_SUBCLASSES + 1 then fallback
            else
              let parts := cs.map (fun c =>
                "(Py_TYPE(" ++ src ++ ") == " ++ typeStructName c ++ ")")
              let full := String.intercalate " || " parts
              if cs.length > 1 then "(" ++ full ++ ")" else full
        let check := if likely then "(likely" ++ check ++ ")" else check
        let st := emitArgCheck st src dest typ check optional
        let st := emitLines st ["    " ++ dest ++ " = " ++ src ++ ";",
          "else \x7b"]
        let st := emitCastErrorHandler st error src dest typ raise_exception
        .ok (emitLine st "\x7d")
      | _ =>
        if is_none_rprimitive typ then
          let st := if declare_dest then
              emitLine st ("PyObject *" ++ dest ++ ";")
            else st
          let check := "(" ++ src ++ " == Py_None)"
          let check := if likely then "(likely" ++ check ++ ")" else check
          let st := emitArgCheck st src dest typ check optional
          let st := emitLines st ["    " ++ dest ++ " = " ++ src ++ ";",
            "else \x7b"]
          let st := emitCastErrorHandler st error src dest typ raise_exception
          .ok (emitLine st "\x7d")
        else if is_object_rprimitive typ then
          let st := if declare_dest then
              emitLine st ("PyObject *" ++ dest ++ ";")
            else st
          let st := emitArgCheck st src dest typ "" optional
          let st := emitLine st (dest ++ " = " ++ src ++ ";")
          .ok (if optional then emitLine st "\x7d" else st)
        else
          match typ with
          | .runion items =>
            unionBody fuel st src dest items typ declare_dest error optional
              raise_exception
          | .rtuple ts =>
            if optional then .error "assert not optional"
            else tupleBody fuel st src dest ts typ declare_dest error src_type
          | _ => .error ("Cast not implemented: " ++ rtypeName typ)
where
  unionBody : Nat → EmitState → String → String → List RType → RType →
      Bool → ErrorHandler → Bool → Bool → Except String EmitState
    | 0, _, _, _, _, _, _, _, _, _ => .error "out of fuel"
    | fuel + 1, st, src2, dest2, items, typFull, dd, err, opt, re =>
      let st := if dd then emitLine st ("PyObject *" ++ dest2 ++ ";") else st
      let pr := newLabel st
      let st := pr.1
      let good := pr.2
      let st := if opt then
          emitLines st ["if (" ++ src2 ++ " == NULL) \x7b",
            dest2 ++ " = " ++ cErrorValueStr typFull ++ ";",
            "goto " ++ good ++ ";", "\x7d"]
        else st
      match unionItems fuel st src2 dest2 items good with
      | .error e => .error e
      | .ok st2 =>
        let st3 := emitCastErrorHandler st2 err src2 dest2 typFull re
        .ok (emitLabel st3 good)
  unionItems : Nat → EmitState → String → String → List RType → String →
      Except String EmitState
    | 0, _, _, _, _, _ => .error "out of fuel"
    | _ + 1, st, _, _, [], _ => .ok st
    | fuel + 1, st, src2, dest2, item :: items, good =>
      match emitCastFuel fuel st src2 dest2 item false .assignHandler false
          false none false with
      | .error e => .error e
      | .ok st2 =>
        unionItems fuel (emitLine st2
            ("if (" ++ dest2 ++ " != NULL) goto " ++ good ++ ";"))
          src2 dest2 items good
  tupleBody : Nat → EmitState → String → String → List RType → RType →
      Bool → ErrorHandler → Option RType → Except String EmitState
    | 0, _, _, _, _, _, _, _, _ => .error "out of fuel"
    | fuel + 1, st, src2, dest2, ts, typFull, dd, err, stype =>
      let st := if dd then emitLine st ("PyObject *" ++ dest2 ++ ";") else st
      let pr := newLabel st
      let st := pr.1
      let out := pr.2
      let st := emitLines st
        ["if (unlikely(!(PyTuple_Check(" ++ src2 ++ ") && PyTuple_GET_SIZE("
           ++ src2 ++ ") == " ++ toString ts.length ++ "))) \x7b",
         dest2 ++ " = NULL;",
         "goto " ++ out ++ ";",
         "\x7d"]
      match tupleItems fuel st src2 dest2 ts 0 out with
      | .error e => .error e
      | .ok st2 =>
        let st3 := emitLine st2 (dest2 ++ " = " ++ src2 ++ ";")
        .ok (emitLabel st3 out)
  tupleItems : Nat → EmitState → String → String → List RType → Nat →
      String → Except String EmitState
    | 0, _, _, _, _, _, _ => .error "out of fuel"
    | _ + 1, st, _, _, [], _, _ => .ok st
    | fuel + 1, st, src2, dest2, item :: items, i, out =>
      match emitCastFuel fuel st
          ("PyTuple_GET_ITEM(" ++ src2 ++ ", " ++ toString i ++ ")")
          dest2 item false .assignHandler false false none true with
      | .error e => .error e
      | .ok st2 =>
        tupleItems fuel (emitLine st2
            ("if (" ++ dest2 ++ " == NULL) goto " ++ out ++ ";"))
          src2 dest2 items (i + 1) out

/-- `Emitter.emit_cast` at its sufficient fuel. -/
def emitCast (st : EmitState) (src dest : String) (typ : RType)
    (declare_dest : Bool) (error : ErrorHandler) (raise_exception : Bool)
    (optional : Bool) (src_type : Option RType) (likely : Bool) :
    Except String EmitState :=
  emitCastFuel (rtypeFuel typ) st src dest typ declare_dest error
    raise_exception optional src_type likely

/-- `Emitter.emit_unbox`: emit code for unboxing a value of type `typ` from a
`PyObject *`.  The failure snippet is computed from the error handler first
(a `TracebackAndGotoHandler` hits the source's
`assert isinstance(error, ReturnHandler)`, modelled as `.error`); with
`raise_exception` a `CPy_TypeError` call is prepended.  The int64, int32 and
float branches emit no failure path at all (the source's
`# TODO: Handle 'failure'` comments); the final `.error` models
`assert False, 'Unboxing not implemented'`. -/
def emitUnboxFuel : Nat → EmitState → String → String → RType → Bool →
    ErrorHandler → Bool → Bool → Bool → Except String EmitState
  | 0, _, _, _, _, _, _, _, _, _ => .error "out of fuel"
  | fuel + 1, st, src, dest, typ, declare_dest, error, raise_exception,
      optional, borrow =>
    match (match error with
      | .assignHandler =>
        (.ok (dest ++ " = " ++ cErrorValueStr typ ++ ";") :
          Except String String)
      | .gotoHandler label => .ok ("goto " ++ label ++ ";")
      | .returnHandler value => .ok ("return " ++ value ++ ";")
      | .tracebackAndGotoHandler _ _ _ _ _ =>
        .error "assert isinstance(error, ReturnHandler)") with
    | .error e => .error e
    | .ok failure0 =>
      let failure := if raise_exception then
          "CPy_TypeError(\"" ++ prettyName typ ++ "\", " ++ src ++ "); "
            ++ failure0
        else failure0
      if is_int_rprimitive typ || is_short_int_rprimitive typ then
        let st := if declare_dest then
            emitLine st ("CPyTagged " ++ dest ++ ";")
          else st
        let st := emitArgCheck st src dest typ
          ("(likely(PyLong_Check(" ++ src ++ ")))") optional
        let st := if borrow then
            emitLine st ("    " ++ dest ++ " = CPyTagged_BorrowFromObject("
              ++ src ++ ");")
          else
            emitLine st ("    " ++ dest ++ " = CPyTagged_FromObject(" ++ src
              ++ ");")
        let st := emitLine st "else \x7b"
        let st := emitLine st failure
        .ok (emitLine st "\x7d")
      else if is_bool_rprimitive typ || is_bit_rprimitive typ then
        let st := if declare_dest then emitLine st ("char " ++ dest ++ ";")
          else st
        let st := emitArgCheck st src dest typ
          ("(unlikely(!PyBool_Check(" ++ src ++ "))) \x7b") optional
        let st := emitLine st failure
        let st := emitLine st "\x7d else"
        let conversion := src ++ " == Py_True"
        .ok (emitLine st ("    " ++ dest ++ " = " ++ conversion ++ ";"))
      else if is_none_rprimitive typ then
        let st := if declare_dest then emitLine st ("char " ++ dest ++ ";")
          else st
        let st := emitArgCheck st src dest typ
          ("(unlikely(" ++ src ++ " != Py_None)) \x7b") optional
        let st := emitLine st failure
        let st := emitLine st "\x7d else"
        .ok (emitLine st ("    " ++ dest ++ " = 1;"))
      else if is_int64_rprimitive typ then
        let st := if declare_dest then emitLine st ("int64_t " ++ dest ++ ";")
          else st
        .ok (emitLine st (dest ++ " = CPyLong_AsInt64(" ++ src ++ ");"))
      else if is_int32_rprimitive typ then
        let st := if declare_dest then emitLine st ("int32_t " ++ dest ++ ";")
          else st
        .ok (emitLine st (dest ++ " = CPyLong_AsInt32(" ++ src ++ ");"))
      else if is_float_rprimitive typ then
        let st := if declare_dest then emitLine st ("double " ++ dest ++ ";")
          else st
        let st := emitLine st (dest ++ " = PyFloat_AsDouble(" ++ src ++ ");")
        .ok (emitLines st
          ["if (" ++ dest ++ " == -1.0 && PyErr_Occurred()) \x7b",
           dest ++ " = -113.0;", "\x7d"])
      else
        match typ with
        | .rtuple ts =>
          -- declare_tuple_struct registers a header declaration, no lines
          let st := if declare_dest then
              emitLine st (RType.ctype typ ++ " " ++ dest ++ ";")
            else st
          let st := if optional then
              emitLines st ["if (" ++ src ++ " == NULL) \x7b",
                dest ++ " = " ++ cErrorValueStr typ ++ ";", "\x7d else \x7b"]
            else st
          let pr := tempName st
          let st := pr.1
          let cast_temp := pr.2
          match emitCastFuel.tupleBody fuel st src cast_temp ts typ true error
              none with
          | .error e => .error e
          | .ok st =>
            let st := emitLine st ("if (unlikely(" ++ cast_temp
              ++ " == NULL)) \x7b")
            let st := emitLine st failure
            let st := emitLine st "\x7d else \x7b"
            let st := if ts.isEmpty then
                emitLine st (dest ++ ".empty_struct_error_flag = 0;")
              else st
            match unboxItems fuel st src dest ts 0 error raise_exception
                borrow with
            | .error e => .error e
            | .ok st =>
              let st := emitLine st "\x7d"
              .ok (if optional then emitLine st "\x7d" else st)
        | _ => .error ("Unboxing not implemented: " ++ rtypeName typ)
where
  unboxItems : Nat → EmitState → String → String → List RType → Nat →
      ErrorHandler → Bool → Bool → Except String EmitState
    | 0, _, _, _, _, _, _, _, _ => .error "out of fuel"
    | _ + 1, st, _, _, [], _, _, _, _ => .ok st
    | fuel + 1, st, src2, dest2, item :: items, i, err, re, brw =>
      let pr := tempName st
      let st := pr.1
      let temp := pr.2
      let st := emitLine st ("PyObject *" ++ temp ++ " = PyTuple_GET_ITEM("
        ++ src2 ++ ", " ++ toString i ++ ");")
      let pr2 := tempName st
      let st := pr2.1
      let temp2 := pr2.2
      match (if item.is_unboxed then
          emitUnboxFuel fuel st temp temp2 item true err re false brw
        else
          let st := if !brw then emitIncRef st temp object_rprimitive else st
          emitCastFuel fuel st temp temp2 item true .assignHandler true false
            none true) with
      | .error e => .error e
      | .ok st =>
        unboxItems fuel (emitLine st (dest2 ++ ".f" ++ toString i ++ " = "
            ++ temp2 ++ ";"))
          src2 dest2 items (i + 1) err re brw

/-- `Emitter.emit_unbox` at its sufficient fuel. -/
def emitUnbox (st : EmitState) (src dest : String) (typ : RType)
    (declare_dest : Bool) (error : ErrorHandler) (raise_exception : Bool)
    (optional : Bool) (borrow : Bool) : Except String EmitState :=
  emitUnboxFuel (rtypeFuel typ) st src dest typ declare_dest error
    raise_exception optional borrow


/-- The characteristic action line of each error handler as emitted by
`emit_cast_error_handler`. -/
def handlerActionLine (error : ErrorHandler) (dest : String) : String :=
  match error with
  | .assignHandler => dest ++ " = NULL;"
  | .gotoHandler l => "goto " ++ l ++ ";"
  | .tracebackAndGotoHandler l _ _ _ _ => "goto " ++ l ++ ";"
  | .returnHandler v => "return " ++ v ++ ";"

/-- The failure action of each handler as computed by `emit_unbox` (without
the optional `CPy_TypeError` raising prefix). -/
def unboxFailureAction (error : ErrorHandler) (typ : RType) (dest : String) :
    String :=
  match error with
  | .assignHandler => dest ++ " = " ++ cErrorValueStr typ ++ ";"
  | .gotoHandler l => "goto " ++ l ++ ";"
  | .returnHandler v => "return " ++ v ++ ";"
  | .tracebackAndGotoHandler _ _ _ _ _ => ""

def ErrorHandler.isTracebackHandler : ErrorHandler → Bool
  | .tracebackAndGotoHandler _ _ _ _ _ => true
  | _ => false

/-- The target classes of `emit_cast` whose generated code has a failure path
that invokes the configured error handler: the checked primitives, bytes, the
boxed tuple primitive, None, class instances and unions (the `object` target
cannot fail, an unboxed RTuple target handles failure locally, anything else
hits the `assert False`). -/
def castHasFailurePath (typ : RType) : Bool :=
  (castCheckName typ).isSome || is_bytes_rprimitive typ ||
  is_tuple_rprimitive typ || is_none_rprimitive typ ||
  (match typ with
   | .rinstance _ _ => true
   | .runion _ => true
   | _ => false)

/-- The non-tuple target classes of `emit_unbox` whose generated code emits
the configured failure action: tagged ints, bool/bit and None (the
fixed-width ints and float ignore the failure policy; tuple targets also
emit the failure action, around the member conversions). -/
def unboxHonorsFailure (typ : RType) : Bool :=
  is_int_rprimitive typ || is_short_int_rprimitive typ ||
  is_bool_rprimitive typ || is_bit_rprimitive typ ||
  is_none_rprimitive typ



/-! ### Semantics of emit_box / emit_unbox (claim C9) -/

/-- Modelled from the spec: a primitive carrying one of the rtypes.py
singleton names agrees with that singleton's unboxedness (rtypes.py defines
each named primitive exactly once, so every RType reaching the emitter
satisfies this). -/
def wfRType : RType → Bool
  | .rprimitive n _ u _ _ _ =>
    if n == "builtins.int" || n == "short_int" || n == "builtins.bool" ||
        n == "bit" || n == "builtins.None" || n == "int64" || n == "int32" ||
        n == "builtins.float" then u else !u
  | .rtuple ts => go ts
  | .rinstance _ _ => true
  | .runion _ => true
where go : List RType → Bool
  | [] => true
  | t :: ts => wfRType t && go ts

/-- Modelled from the spec: the runtime type test performed by the code that
`emit_cast` emits for a boxed target (emit_unbox converts a boxed tuple
member with `emit_cast`): an `object` target is unchecked (the cast is a
plain assignment), a boxed primitive checks the object's python type against
the primitive's name and an `rinstance` checks the class name; on success the
cast assigns the same pointer.  Union targets and the remaining cases are
immaterial here and count as non-matching. -/
def pyTypeMatches : RType → PyObj → Bool
  | .rprimitive n _ _ _ _ _, o =>
    if n == "builtins.object" then true
    else
      match o with
      | .obj ty _ => n == ty
      | .pyLong _ => n == "builtins.int"
      | .pyBool _ => n == "builtins.bool"
      | .pyFloat _ => n == "builtins.float"
      | .pyNone => n == "builtins.None"
      | .pyTuple _ => n == "builtins.tuple"
      | .nullPtr => false
  | .rinstance cn _, o =>
    match o with
    | .obj ty _ => cn == ty
    | _ => false
  | _, _ => false

/-- Semantics of the conversion emitted by `Emitter.emit_box`, in emit_box's
dispatch order (the `is_..._rprimitive` tests reduce to tests of the
primitive's name).  Modelled from the spec: the C calls' behaviour
(`CPyTagged_StealAsObject`, `Py_True`/`Py_False` selection,
`PyLong_FromLong(Long)`, `PyFloat_FromDouble`, `PyTuple_New` +
`PyTuple_SET_ITEM`) is the C runtime, outside src.  A tuple boxes every
member recursively (boxing an already boxed member is emit_box's trivial
assignment); any other boxed type is assigned unchanged.  Ill-typed inputs
(a struct value for a scalar representation and the like) yield NULL. -/
def boxVal : RType → CVal → PyObj
  | .rprimitive n _ _ _ _ _, v =>
    if n == "builtins.int" || n == "short_int" then
      match v with | .prim i => .pyLong i | _ => .nullPtr
    else if n == "builtins.bool" || n == "bit" then
      match v with | .prim i => .pyBool (i != 0) | _ => .nullPtr
    else if n == "builtins.None" then .pyNone
    else if n == "int32" then
      match v with | .prim i => .pyLong i | _ => .nullPtr
    else if n == "int64" then
      match v with | .prim i => .pyLong i | _ => .nullPtr
    else if n == "builtins.float" then
      match v with | .prim i => .pyFloat i | _ => .nullPtr
    else
      match v with | .pobj o => o | _ => .nullPtr
  | .rtuple ts, v =>
    match v with
    | .tup fs => .pyTuple (go ts fs)
    | _ => .nullPtr
  | _, v =>
    match v with | .pobj o => o | _ => .nullPtr
where go : List RType → List CVal → List PyObj
  | t :: ts, f :: fs => boxVal t f :: go ts fs
  | _, _ => []

/-- Semantics of the conversion emitted by `Emitter.emit_unbox`, in
emit_unbox's dispatch order; `none` is the failure path.  Modelled from the
spec for the C runtime calls: `PyLong_Check` + `CPyTagged_FromObject` for
tagged ints, `PyBool_Check` + `src == Py_True` for bool/bit, the
`src != Py_None` test for None, `CPyLong_AsInt64` / `CPyLong_AsInt32`
(failing when the value does not fit the width), `PyFloat_AsDouble` (the
emitted `-1.0 && PyErr_Occurred()` rewrite cannot trigger right after a
successful box, so it is not modelled), and for tuples the
`emit_tuple_cast` arity check followed by per-member unboxing
(`item_type.is_unboxed`) or cast (`pyTypeMatches`, assigning the same
pointer).  `emit_unbox` asserts on every other type. -/
def unboxVal : RType → PyObj → Option CVal
  | .rprimitive n _ _ _ _ _, o =>
    if n == "builtins.int" || n == "short_int" then
      match o with | .pyLong v => some (.prim v) | _ => none
    else if n == "builtins.bool" || n == "bit" then
      match o with
      | .pyBool b => some (.prim (if b then 1 else 0))
      | _ => none
    else if n == "builtins.None" then
      match o with | .pyNone => some (.prim 1) | _ => none
    else if n == "int64" then
      match o with
      | .pyLong v =>
        if -(2 ^ 63) ≤ v ∧ v < 2 ^ 63 then some (.prim v) else none
      | _ => none
    else if n == "int32" then
      match o with
      | .pyLong v =>
        if -(2 ^ 31) ≤ v ∧ v < 2 ^ 31 then some (.prim v) else none
      | _ => none
    else if n == "builtins.float" then
      match o with | .pyFloat v => some (.prim v) | _ => none
    else none
  | .rtuple ts, o =>
    match o with
    | .pyTuple items =>
      if items.length == ts.length then
        match go ts items with
        | some fs => some (.tup fs)
        | none => none
      else none
    | _ => none
  | _, _ => none
where go : List RType → List PyObj → Option (List CVal)
  | [], [] => some []
  | t :: ts, o :: os =>
    match (if t.is_unboxed then unboxVal t o
           else if pyTypeMatches t o then some (.pobj o) else none) with
    | some f =>
      match go ts os with
      | some fs => some (f :: fs)
      | none => none
    | none => none
  | _, _ => none

/-- Modelled from the spec: the raw values a representation can hold when
produced by correctly-typed generated code: any integer for the tagged int
representations, 0/1 for bool and bit, exactly 1 for the unit None
representation, width-bounded integers for int64/int32, any payload for
float, member-wise representable structs of matching arity for tuples, and
for a boxed representation an object pointer passing that representation's
runtime type test (union representations are out of scope of the claim's
round-trip and count as not representable). -/
def Representable : RType → CVal → Bool
  | .rprimitive n c u rc cu ov, v =>
    match v with
    | .prim i =>
      if n == "builtins.int" || n == "short_int" then true
      else if n == "builtins.bool" || n == "bit" then i == 0 || i == 1
      else if n == "builtins.None" then i == 1
      else if n == "int64" then decide (-(2 ^ 63) ≤ i ∧ i < 2 ^ 63)
      else if n == "int32" then decide (-(2 ^ 31) ≤ i ∧ i < 2 ^ 31)
      else if n == "builtins.float" then true
      else false
    | .pobj o => !u && pyTypeMatches (.rprimitive n c u rc cu ov) o
    | .tup _ => false
  | .rtuple ts, v =>
    match v with
    | .tup fs => go ts fs
    | _ => false
  | .rinstance cn conc, v =>
    match v with
    | .pobj o => pyTypeMatches (.rinstance cn conc) o
    | _ => false
  | .runion _, _ => false
where go : List RType → List CVal → Bool
  | [], [] => true
  | t :: ts, f :: fs => Representable t f && go ts fs
  | _, _ => false

end Mypyc

namespace Generator

/-! ### Generator method IR (mypyc/irbuild/generator.py) -/

/-- Exception classes as observed by the generated `close()` logic.  Modelled
from the spec: the CPython class objects loaded by
`load_module_attr_by_fullname` are runtime values outside src; an exception is
identified with the class that `exc_matches_op` matches it against. -/
inductive ExcClass where
  | generatorExit
  | stopIteration
  | other (name : String)
deriving DecidableEq

/-- The observable effect of the `MethodCall(self, "throw", [GeneratorExit,
None, None])` issued by `close()`: the suspended generator body either raises
some exception (landing in the call's error handler) or returns a value
normally. -/
inductive ThrowOutcome where
  | raised (e : ExcClass)
  | returned
deriving DecidableEq

/-- The IR operations appearing in the blocks that
`add_close_to_generator_class` builds, with basic blocks referenced by index.
Pure value loads (`load_module_attr_by_fullname`, `TupleSet`) are folded into
the operations that consume them: the thrown class into `methodCallThrow`, the
`(GeneratorExit, StopIteration)` tuple into `branchExcMatches`. -/
inductive GenInst where
  | methodCallThrow (exc : ExcClass) (errTarget : Nat)
  | goto (target : Nat)
  | errorCatch
  | branchExcMatches (classes : List ExcClass) (tBlock fBlock : Nat)
  | restoreExcInfo
  | returnNone
  | reraise
  | raiseRuntimeError (msg : String)
  | unreachable
deriving DecidableEq

/-- The basic blocks built by `add_close_to_generator_class`:
block 0 (entry): throw GeneratorExit into the body with error handler
block 1, then goto the else block 4;
block 1 (except): `error_catch_op`, then branch on
`exc_matches_op((GeneratorExit, StopIteration))` to block 2 / block 3;
block 2 (match): `restore_exc_info_op`, `Return(none_object)`;
block 3 (non-match): `reraise_exception_op`, `Unreachable`;
block 4 (else): `RaiseStandardError(RUNTIME_ERROR, "generator ignored
GeneratorExit")`, `Unreachable`. -/
def addCloseToGeneratorClass : List (List GenInst) :=
  [[.methodCallThrow .generatorExit 1, .goto 4],
   [.errorCatch, .branchExcMatches [.generatorExit, .stopIteration] 2 3],
   [.restoreExcInfo, .returnNone],
   [.reraise, .unreachable],
   [.raiseRuntimeError "generator ignored GeneratorExit", .unreachable]]

/-- What running the emitted `close()` does, as observed by its caller. -/
inductive CloseResult where
  | returnsNone
  | propagates (e : ExcClass)
  | raisesRuntimeError (msg : String)
  | stuck
deriving DecidableEq

/-- Modelled from the spec: `exc_matches_op` reports whether the active
exception matches one of the classes in the tuple it is given. -/
def excMatches (classes : List ExcClass) (e : ExcClass) : Bool :=
  match classes with
  | [] => false
  | c :: cs => c == e || excMatches cs e

/-- Step interpreter for the blocks of the generated `close()`. `outcome` is
what the throw into the suspended body does; `cur` is the exception caught by
`error_catch_op` (the one the error handler is running for). -/
def runClose (blocks : List (List GenInst)) (outcome : ThrowOutcome) :
    Nat → List GenInst → Option ExcClass → CloseResult
  | 0, _, _ => .stuck
  | _ + 1, [], _ => .stuck
  | fuel + 1, inst :: rest, cur =>
    match inst with
    | .methodCallThrow _ errTarget =>
      match outcome with
      | .raised e => runClose blocks outcome fuel (blocks.getD errTarget []) (some e)
      | .returned => runClose blocks outcome fuel rest cur
    | .goto t => runClose blocks outcome fuel (blocks.getD t []) cur
    | .errorCatch => runClose blocks outcome fuel rest cur
    | .branchExcMatches classes tB fB =>
      match cur with
      | some e =>
        if excMatches classes e then
          runClose blocks outcome fuel (blocks.getD tB []) cur
        else
          runClose blocks outcome fuel (blocks.getD fB []) cur
      | none => .stuck
    | .restoreExcInfo => runClose blocks outcome fuel rest cur
    | .returnNone => .returnsNone
    | .reraise =>
      match cur with
      | some e => .propagates e
      | none => .stuck
    | .raiseRuntimeError msg => .raisesRuntimeError msg
    | .unreachable => .stuck

/-- Behaviour of the emitted `close()` as a function of what the throw into
the body does: run the blocks from the entry block (fuel 16 covers the at
most 4 block transfers plus the instructions of each block). -/
def closeBehavior (outcome : ThrowOutcome) : CloseResult :=
  runClose addCloseToGeneratorClass outcome 16
    (addCloseToGeneratorClass.getD 0 []) none

/-! ### __next__ and send (add_next_to_generator_class / add_send_to_generator_class) -/

/-- The helper method name created by `add_helper_to_generator_class`. -/
def generatorHelperName : String := "__mypyc_generator_helper__"

/-- Arguments of the helper call emitted in a generated generator method:
`self`, the `Py_None` register (`builder.none_object()`), or an argument read
from the caller (`builder.read(arg)`). -/
inductive MethodArg where
  | selfArg
  | noneObj
  | callerArg (name : String)
deriving DecidableEq

/-- A generated generator method whose body is a single `Call` to a shared
helper followed by `Return(result)`. -/
structure GenMethod where
  name : String
  callee : String
  args : List MethodArg
deriving DecidableEq

/-- `add_next_to_generator_class`: `__next__` calls the helper function with
error flags set to `Py_None` and returns that result:
`Call(fn_decl, [self, none_reg, none_reg, none_reg, none_reg])`. -/
def addNextToGeneratorClass : GenMethod :=
  ⟨"__next__", generatorHelperName,
    [.selfArg, .noneObj, .noneObj, .noneObj, .noneObj]⟩

/-- `add_send_to_generator_class`: `send(arg)` calls the helper function with
error flags set to `Py_None` and the caller's argument last:
`Call(fn_decl, [self, none_reg, none_reg, none_reg, builder.read(arg)])`. -/
def addSendToGeneratorClass : GenMethod :=
  ⟨"send", generatorHelperName,
    [.selfArg, .noneObj, .noneObj, .noneObj, .callerArg "arg"]⟩

/-- Substituting `Py_None` for every caller-supplied argument: the effect of
calling `send` with the argument `None`. -/
def substNone (a : MethodArg) : MethodArg :=
  match a with
  | .callerArg _ => .noneObj
  | a => a

end Generator


/-! ## Theorems -/

namespace Mypyc

theorem RType.beq_iff_rtype : ∀ a b : RType, RType.beq a b = true ↔ a = b
  | .rprimitive n c u r cu o, b => by
    cases b <;> simp [RType.beq] <;> tauto
  | .rtuple ts, b => by
    cases b with
    | rtuple ts2 =>
      rw [show (RType.beq (.rtuple ts) (.rtuple ts2)) = RType.beq.go ts ts2 from rfl]
      rw [go ts ts2]
      simp
    | rprimitive n c u r cu o => simp [RType.beq]
    | rinstance n c => simp [RType.beq]
    | runion ts2 => simp [RType.beq]
  | .rinstance n c, b => by
    cases b <;> simp [RType.beq]
  | .runion ts, b => by
    cases b with
    | runion ts2 =>
      rw [show (RType.beq (.runion ts) (.runion ts2)) = RType.beq.go ts ts2 from rfl]
      rw [go ts ts2]
      simp
    | rprimitive n c u r cu o => simp [RType.beq]
    | rinstance n c => simp [RType.beq]
    | rtuple ts2 => simp [RType.beq]
where go : ∀ fs gs : List RType, RType.beq.go fs gs = true ↔ fs = gs
  | [], [] => by simp [RType.beq.go]
  | [], g :: gs => by simp [RType.beq.go]
  | f :: fs, [] => by simp [RType.beq.go]
  | f :: fs, g :: gs => by
    rw [RType.beq.go, Bool.and_eq_true, RType.beq_iff_rtype f g, go fs gs]
    simp

instance : DecidableEq RType := fun a b => decidable_of_iff _ (RType.beq_iff_rtype a b)


theorem PyObj.beq_iff_pyobj : ∀ a b : PyObj, PyObj.beq a b = true ↔ a = b
  | .pyLong v, b => by cases b <;> simp [PyObj.beq]
  | .pyBool x, b => by cases b <;> simp [PyObj.beq]
  | .pyNone, b => by cases b <;> simp [PyObj.beq]
  | .pyFloat v, b => by cases b <;> simp [PyObj.beq]
  | .pyTuple xs, b => by
    cases b with
    | pyTuple ys =>
      rw [show (PyObj.beq (.pyTuple xs) (.pyTuple ys)) = PyObj.beq.go xs ys from rfl]
      rw [go xs ys]
      simp
    | pyLong v => simp [PyObj.beq]
    | pyBool c => simp [PyObj.beq]
    | pyNone => simp [PyObj.beq]
    | pyFloat v => simp [PyObj.beq]
    | obj t i => simp [PyObj.beq]
    | nullPtr => simp [PyObj.beq]
  | .obj t i, b => by cases b <;> simp [PyObj.beq]
  | .nullPtr, b => by cases b <;> simp [PyObj.beq]
where go : ∀ xs ys : List PyObj, PyObj.beq.go xs ys = true ↔ xs = ys
  | [], [] => by simp [PyObj.beq.go]
  | [], y :: ys => by simp [PyObj.beq.go]
  | x :: xs, [] => by simp [PyObj.beq.go]
  | x :: xs, y :: ys => by
    rw [PyObj.beq.go, Bool.and_eq_true, PyObj.beq_iff_pyobj x y, go xs ys]
    simp

instance : DecidableEq PyObj := fun a b => decidable_of_iff _ (PyObj.beq_iff_pyobj a b)


theorem CVal.beq_iff_cval : ∀ a b : CVal, CVal.beq a b = true ↔ a = b
  | .prim v, b => by cases b <;> simp [CVal.beq]
  | .pobj o, b => by cases b <;> simp [CVal.beq, PyObj.beq_iff_pyobj]
  | .tup fs, b => by
    cases b with
    | tup gs =>
      rw [show (CVal.beq (.tup fs) (.tup gs)) = CVal.beq.go fs gs from rfl]
      rw [go fs gs]
      simp
    | prim w => simp [CVal.beq]
    | pobj p => simp [CVal.beq]
where go : ∀ fs gs : List CVal, CVal.beq.go fs gs = true ↔ fs = gs
  | [], [] => by simp [CVal.beq.go]
  | [], g :: gs => by simp [CVal.beq.go]
  | f :: fs, [] => by simp [CVal.beq.go]
  | f :: fs, g :: gs => by
    rw [CVal.beq.go, Bool.and_eq_true, CVal.beq_iff_cval f g, go fs gs]
    simp

instance : DecidableEq CVal := fun a b => decidable_of_iff _ (CVal.beq_iff_cval a b)


end Mypyc

/-! ## Theorems: semantic analysis scheduler (claims C1 - C4) -/

namespace SemanalMain

theorem processRound_final_no_defer {σ : Type} (a : Analyzer σ) (h : FinalNoDefer a) :
    ∀ (l : List String) (s : σ) (inc : List String),
      (processRound a true s l inc).allDeferred = []
  | [], s, inc => rfl
  | x :: rest, s, inc => by
    simp only [processRound]
    rw [h s x]
    simp [processRound_final_no_defer a h rest]

theorem processTopLevelsLoop_ok {σ : Type} (a : Analyzer σ) (h : FinalNoDefer a) :
    ∀ (fuel : Nat) (s : σ) (worklist incomplete : List String) (iteration : Nat)
      (trace : List RoundTrace) (events : List NsEvent),
      MAX_ITERATIONS + 1 ≤ fuel + iteration →
      iteration ≤ MAX_ITERATIONS →
      (worklist ≠ [] → iteration < MAX_ITERATIONS) →
      (∀ tr ∈ trace, tr.iteration ≤ MAX_ITERATIONS ∧
        (tr.iteration = MAX_ITERATIONS →
          tr.finalIteration = true ∧ tr.incompleteAtStart = [])) →
      ∃ r, processTopLevelsLoop a fuel s worklist incomplete iteration trace events
          = .ok r ∧
        r.iterations ≤ MAX_ITERATIONS ∧
        ∀ tr ∈ r.trace, tr.iteration ≤ MAX_ITERATIONS ∧
          (tr.iteration = MAX_ITERATIONS →
            tr.finalIteration = true ∧ tr.incompleteAtStart = []) := by
  intro fuel
  induction fuel with
  | zero =>
    intro s worklist incomplete iteration trace events h1 h2 h3 h4
    match worklist with
    | [] => exact ⟨_, rfl, h2, h4⟩
    | w :: ws =>
      have := h3 (by simp)
      omega
  | succ fuel ih =>
    intro s worklist incomplete iteration trace events h1 h2 h3 h4
    match worklist with
    | [] => exact ⟨_, rfl, h2, h4⟩
    | w :: ws =>
      have hlt : iteration < MAX_ITERATIONS := h3 (by simp)
      simp only [processTopLevelsLoop]
      rw [if_neg (by omega)]
      apply ih
      · omega
      · omega
      · intro hne
        rcases Nat.lt_or_ge (iteration + 1) MAX_ITERATIONS with hc | hc
        · exact hc
        · exfalso
          have heq : iteration + 1 = MAX_ITERATIONS := by omega
          have hfin : (iteration + 1 == MAX_ITERATIONS) = true := by
            simpa using heq
          rw [hfin] at hne
          simp only [Bool.true_eq] at hne
          rw [processRound_final_no_defer a h] at hne
          simp at hne
      · intro tr htr
        rcases List.mem_append.mp htr with hin | hnew
        · exact h4 tr hin
        · have : tr = ⟨iteration + 1,
              iteration + 1 == MAX_ITERATIONS,
              if iteration + 1 == MAX_ITERATIONS then [] else incomplete,
              (w :: ws).reverse,
              (processRound a (iteration + 1 == MAX_ITERATIONS) s (w :: ws).reverse
                (if iteration + 1 == MAX_ITERATIONS then [] else incomplete)).allDeferred⟩ := by
            simpa using hnew
          subst this
          refine ⟨show iteration + 1 ≤ MAX_ITERATIONS by omega, ?_⟩
          intro hmax
          simp only [RoundTrace.iteration] at hmax
          have hfin : (iteration + 1 == MAX_ITERATIONS) = true := by simpa using hmax
          simp [hfin]

/-- C1: for every input SCC (and every analyzer obeying the final-iteration
contract), `process_top_levels` terminates with an `.ok` result — the
`assert False` for exceeding the ceiling never fires — and the round counter
never exceeds `MAX_ITERATIONS` (10). -/
theorem process_top_levels_terminates_within_max_iterations {σ : Type}
    (a : Analyzer σ) (s : σ) (scc : List String) (h : FinalNoDefer a) :
    ∃ r, processTopLevels a s scc = .ok r ∧ r.iterations ≤ MAX_ITERATIONS ∧
      ∀ tr ∈ r.trace, tr.iteration ≤ MAX_ITERATIONS := by
  obtain ⟨r, hok, hle, htr⟩ := processTopLevelsLoop_ok a h (MAX_ITERATIONS + 1) s
    (if core_modules.all (fun m => scc.contains m) then
      scc ++ (List.replicate CORE_WARMUP core_modules.reverse).flatten else scc)
    scc 0 [] [.update scc] (by omega) (by omega)
    (fun _ => by simp [MAX_ITERATIONS])
    (by intro tr htr; simp at htr)
  refine ⟨r, ?_, hle, fun tr ht => (htr tr ht).1⟩
  simpa only [processTopLevels] using hok

/-- Witness for C1 at a concrete pathological input: a two-module SCC whose
targets defer on every non-final round. -/
theorem process_top_levels_terminates_witness :
    ∃ r, processTopLevels alwaysDeferAnalyzer () ["a", "b"] = .ok r ∧
      r.iterations ≤ MAX_ITERATIONS ∧
      ∀ tr ∈ r.trace, tr.iteration ≤ MAX_ITERATIONS :=
  process_top_levels_terminates_within_max_iterations alwaysDeferAnalyzer ()
    ["a", "b"] (fun s t => rfl)

/-- C4: hitting the iteration ceiling is not fatal: the run still ends in an
`.ok` result (no assertion, no hang), and any round whose counter equals
`MAX_ITERATIONS` is run as a forced-completion pass: its `final_iteration`
flag is set and the incomplete-namespaces set has been cleared before it. -/
theorem iteration_ceiling_not_fatal {σ : Type}
    (a : Analyzer σ) (s : σ) (scc : List String) (h : FinalNoDefer a) :
    ∃ r, processTopLevels a s scc = .ok r ∧
      ∀ tr ∈ r.trace, tr.iteration = MAX_ITERATIONS →
        tr.finalIteration = true ∧ tr.incompleteAtStart = [] := by
  obtain ⟨r, hok, hle, htr⟩ := processTopLevelsLoop_ok a h (MAX_ITERATIONS + 1) s
    (if core_modules.all (fun m => scc.contains m) then
      scc ++ (List.replicate CORE_WARMUP core_modules.reverse).flatten else scc)
    scc 0 [] [.update scc] (by omega) (by omega)
    (fun _ => by simp [MAX_ITERATIONS])
    (by intro tr htr; simp at htr)
  refine ⟨r, ?_, fun tr ht => (htr tr ht).2⟩
  simpa only [processTopLevels] using hok

/-- Witness for C4 at a concrete input that exhausts the ceiling. -/
theorem iteration_ceiling_not_fatal_witness :
    ∃ r, processTopLevels alwaysDeferAnalyzer () ["a", "b"] = .ok r ∧
      ∀ tr ∈ r.trace, tr.iteration = MAX_ITERATIONS →
        tr.finalIteration = true ∧ tr.incompleteAtStart = [] :=
  iteration_ceiling_not_fatal alwaysDeferAnalyzer () ["a", "b"] (fun s t => rfl)

theorem chainedTrace_append : ∀ (l : List RoundTrace) (t : RoundTrace),
    ChainedTrace l →
    (∀ last, l.getLast? = some last → t.processed = last.allDeferred) →
    ChainedTrace (l ++ [t])
  | [], t, _, _ => trivial
  | [x], t, _, hl => ⟨hl x rfl, trivial⟩
  | x :: y :: rest, t, hc, hl =>
    ⟨hc.1, chainedTrace_append (y :: rest) t hc.2
      (fun last hlast => hl last (by rw [List.getLast?_cons_cons]; exact hlast))⟩

theorem processTopLevelsLoop_chained {σ : Type} (a : Analyzer σ) :
    ∀ (fuel : Nat) (s : σ) (worklist incomplete : List String) (iteration : Nat)
      (trace : List RoundTrace) (events : List NsEvent) (r : TopLevelsResult σ),
      ChainedTrace trace →
      (∀ last, trace.getLast? = some last → worklist = last.allDeferred.reverse) →
      processTopLevelsLoop a fuel s worklist incomplete iteration trace events
        = .ok r →
      ChainedTrace r.trace := by
  intro fuel
  induction fuel with
  | zero =>
    intro s worklist incomplete iteration trace events r hc hl hok
    match worklist, hok with
    | [], hok => cases hok; exact hc
    | w :: ws, hok => cases hok
  | succ fuel ih =>
    intro s worklist incomplete iteration trace events r hc hl hok
    match worklist, hok with
    | [], hok => cases hok; exact hc
    | w :: ws, hok =>
      simp only [processTopLevelsLoop] at hok
      by_cases hgt : iteration + 1 > MAX_ITERATIONS
      · rw [if_pos hgt] at hok
        cases hok
      · rw [if_neg hgt] at hok
        refine ih _ _ _ _ _ _ r ?_ ?_ hok
        · apply chainedTrace_append _ _ hc
          intro last hlast
          rw [hl last hlast]
          simp [List.reverse_reverse]
        · intro last hlast
          rw [List.getLast?_concat] at hlast
          cases hlast
          rfl

/-- C3 amended: on every round after the first, `process_top_levels`
reprocesses the deferred targets in the SAME order in which the previous
round deferred them (the worklist is the reversed deferred list, and targets
are popped off its end). -/
theorem reprocessing_order_amended {σ : Type} (a : Analyzer σ) (s : σ)
    (scc : List String) (r : TopLevelsResult σ) :
    processTopLevels a s scc = .ok r → ChainedTrace r.trace := by
  intro hok
  exact processTopLevelsLoop_chained a (MAX_ITERATIONS + 1) s
    (if core_modules.all (fun m => scc.contains m) then
      scc ++ (List.replicate CORE_WARMUP core_modules.reverse).flatten else scc)
    scc 0 [] [.update scc] r trivial (fun last hl => by simp at hl)
    (by simpa only [processTopLevels] using hok)

/-- Witness for the amended C3 on a concrete run. -/
theorem reprocessing_order_amended_witness :
    ChainedTrace [(⟨1, false, ["m"], ["m"], []⟩ : RoundTrace)] :=
  reprocessing_order_amended neverDeferAnalyzer () ["m"]
    ⟨[⟨1, false, ["m"], ["m"], []⟩], (), [], 1,
      [.update ["m"], .discard "m"]⟩ rfl

/-- C3 counterexample: with the two-module SCC `["a", "b"]` and an analyzer
that always defers, round 1 defers the targets in the order `["b", "a"]` and
round 2 processes them again in the order `["b", "a"]` — the order of
deferral, which is NOT the reverse of the order of deferral. -/
theorem reprocessing_reverse_order_counterexample :
    (processTopLevels alwaysDeferAnalyzer () ["a", "b"]).map
      (fun r => ((r.trace.map RoundTrace.allDeferred).take 1,
                 (r.trace.map RoundTrace.processed).take 2)) =
      .ok ([["b", "a"]], [["b", "a"], ["b", "a"]]) ∧
    (["b", "a"] : List String).reverse ≠ ["b", "a"] := by
  constructor
  · rfl
  · decide

theorem nsStep_removalOnly (st : MonoState) (e : NsEvent)
    (he : removalOnly e = true) : (nsStep st e).readded = st.readded := by
  cases e with
  | update ids => simp [removalOnly] at he
  | add id => simp [removalOnly] at he
  | discard id =>
    simp only [nsStep]
    split
    · rfl
    · rfl
  | clear => rfl

theorem foldl_nsStep_removalOnly : ∀ (evs : List NsEvent) (st : MonoState),
    evs.all removalOnly = true → (evs.foldl nsStep st).readded = st.readded
  | [], st, _ => rfl
  | e :: evs, st, h => by
    simp only [List.all_cons, Bool.and_eq_true] at h
    rw [List.foldl_cons, foldl_nsStep_removalOnly evs _ h.2,
      nsStep_removalOnly st e h.1]

theorem processRound_events_removalOnly {σ : Type} (a : Analyzer σ) (final : Bool) :
    ∀ (l : List String) (s : σ) (inc : List String),
      ((processRound a final s l inc).events).all removalOnly = true
  | [], s, inc => rfl
  | x :: rest, s, inc => by
    simp only [processRound, List.all_append, Bool.and_eq_true]
    refine ⟨?_, processRound_events_removalOnly a final rest _ _⟩
    split
    · rfl
    · rfl

theorem processTopLevelsLoop_readded {σ : Type} (a : Analyzer σ) :
    ∀ (fuel : Nat) (s : σ) (worklist incomplete : List String) (iteration : Nat)
      (trace : List RoundTrace) (events : List NsEvent) (r : TopLevelsResult σ),
      processTopLevelsLoop a fuel s worklist incomplete iteration trace events
        = .ok r →
      (nsReplay events).readded = false →
      (nsReplay r.events).readded = false := by
  intro fuel
  induction fuel with
  | zero =>
    intro s worklist incomplete iteration trace events r hok hev
    match worklist, hok with
    | [], hok => cases hok; exact hev
    | w :: ws, hok => cases hok
  | succ fuel ih =>
    intro s worklist incomplete iteration trace events r hok hev
    match worklist, hok with
    | [], hok => cases hok; exact hev
    | w :: ws, hok =>
      simp only [processTopLevelsLoop] at hok
      by_cases hgt : iteration + 1 > MAX_ITERATIONS
      · rw [if_pos hgt] at hok
        cases hok
      · rw [if_neg hgt] at hok
        refine ih _ _ _ _ _ _ r hok ?_
        simp only [nsReplay] at hev ⊢
        rw [List.foldl_append, List.foldl_append]
        rw [foldl_nsStep_removalOnly _ _ (processRound_events_removalOnly a _ _ _ _)]
        rw [foldl_nsStep_removalOnly]
        · exact hev
        · split
          · rfl
          · rfl

theorem nsReplay_initial_update (scc : List String) :
    (nsReplay [NsEvent.update scc]).readded = false := by
  simp [nsReplay, nsStep]

theorem processTopLevelFunctionLoop_events {σ : Type} (a : Analyzer σ)
    (target mod : String) :
    ∀ (fuel : Nat) (s : σ) (iteration : Nat) (more defB incB : Bool) (k : Nat),
      (more = true → iteration + fuel = MAX_ITERATIONS ∧
        iteration < MAX_ITERATIONS) →
      ∃ kk, k < kk ∧
        (processTopLevelFunctionLoop a target mod fuel s iteration more defB incB
          (NsEvent.add mod :: List.replicate k (NsEvent.discard mod))).events =
          NsEvent.add mod :: List.replicate kk (NsEvent.discard mod) := by
  intro fuel
  induction fuel with
  | zero =>
    intro s iteration more defB incB k hinv
    have hmore : more = false := by
      cases more
      · rfl
      · obtain ⟨h1, h2⟩ := hinv rfl
        omega
    subst hmore
    refine ⟨k + 1, by omega, ?_⟩
    simp only [processTopLevelFunctionLoop, Bool.and_false, Bool.false_eq_true,
      if_false]
    simp [List.replicate_succ']
  | succ fuel ih =>
    intro s iteration more defB incB k hinv
    by_cases hdm : (defB && more) = true
    · obtain ⟨hd, hm⟩ := Bool.and_eq_true_iff.mp hdm
      subst hd
      subst hm
      obtain ⟨h1, h2⟩ := hinv rfl
      simp only [processTopLevelFunctionLoop, Bool.and_self, if_true]
      by_cases hlast : ((!(true || incB)) || (iteration + 1 == MAX_ITERATIONS))
          = true
      · rw [if_pos hlast, if_pos hlast]
        rw [show NsEvent.add mod :: List.replicate k (NsEvent.discard mod) ++
            [NsEvent.discard mod] =
            NsEvent.add mod :: List.replicate (k + 1) (NsEvent.discard mod) by
          simp [List.replicate_succ']]
        obtain ⟨kk, hkk, heq⟩ := ih _ (iteration + 1) false _ _ (k + 1)
          (by intro h; cases h)
        exact ⟨kk, by omega, heq⟩
      · rw [if_neg (by simpa using hlast), if_neg (by simpa using hlast)]
        refine ih _ (iteration + 1) true _ _ k ?_
        intro _
        constructor
        · omega
        · simp only [Bool.true_or, Bool.not_true, Bool.false_or] at hlast
          have : ¬(iteration + 1 = MAX_ITERATIONS) := by
            intro hc
            apply hlast
            simpa using hc
          omega
    · refine ⟨k + 1, by omega, ?_⟩
      simp only [processTopLevelFunctionLoop]
      rw [if_neg (by simpa using hdm)]
      simp [List.replicate_succ']

/-- C2 counterexample: one SCC-processing run (`semantic_analysis_for_scc`)
over the single module `"m"` containing one function target, with an analyzer
that completes everything on the first pass.  `process_top_levels` removes
`"m"` from the incomplete-namespaces set, and `process_top_level_function`
then adds `"m"` back to it — so a namespace does return to the incomplete set
after having been removed within the same run. -/
theorem incomplete_namespace_readded_counterexample :
    semanticAnalysisForSccEvents neverDeferAnalyzer () ["m"]
      (fun _ => ["m.f"]) =
      .ok [NsEvent.update ["m"], NsEvent.discard "m", NsEvent.add "m",
        NsEvent.discard "m"] ∧
    monotoneOk [NsEvent.update ["m"], NsEvent.discard "m", NsEvent.add "m",
      NsEvent.discard "m"] = false := ⟨rfl, rfl⟩

/-- C2 amended: within the top-level phase (`process_top_levels`) namespaces
transition monotonically — once discarded from the incomplete set they are
never added back during that phase.  But the invariant does not extend to the
whole SCC run: `process_top_level_function` re-adds the enclosing module's
namespace at the start of each function-body target and afterwards only
discards it again (at least once). -/
theorem incomplete_monotone_amended :
    (∀ (σ : Type) (a : Analyzer σ) (s : σ) (scc : List String)
      (r : TopLevelsResult σ),
      processTopLevels a s scc = .ok r → monotoneOk r.events = true)
    ∧ (∀ (σ : Type) (a : Analyzer σ) (s : σ) (mod target : String),
      ∃ k, 1 ≤ k ∧
        (processTopLevelFunction a s mod target).events =
          NsEvent.add mod :: List.replicate k (NsEvent.discard mod)) := by
  constructor
  · intro σ a s scc r hok
    have h0 : (nsReplay r.events).readded = false := by
      refine processTopLevelsLoop_readded a (MAX_ITERATIONS + 1) s
        (if core_modules.all (fun m => scc.contains m) then
          scc ++ (List.replicate CORE_WARMUP core_modules.reverse).flatten
        else scc) scc 0 [] [.update scc] r
        (by simpa only [processTopLevels] using hok)
        (nsReplay_initial_update scc)
    simp [monotoneOk, h0]
  · intro σ a s mod target
    obtain ⟨kk, hkk, heq⟩ := processTopLevelFunctionLoop_events a target mod
      MAX_ITERATIONS s 0 true true true 0 (by intro _; exact ⟨by omega, by simp [MAX_ITERATIONS]⟩)
    exact ⟨kk, by omega, heq⟩

/-- Witness for the amended C2 at concrete inputs. -/
theorem incomplete_monotone_amended_witness :
    monotoneOk [NsEvent.update ["m"], NsEvent.discard "m"] = true ∧
    (∃ k, 1 ≤ k ∧
      (processTopLevelFunction neverDeferAnalyzer () "m" "m.f").events =
        NsEvent.add "m" :: List.replicate k (NsEvent.discard "m")) :=
  ⟨incomplete_monotone_amended.1 Unit neverDeferAnalyzer () ["m"]
      ⟨[⟨1, false, ["m"], ["m"], []⟩], (), [], 1,
        [.update ["m"], .discard "m"]⟩ rfl,
    incomplete_monotone_amended.2 Unit neverDeferAnalyzer () "m" "m.f"⟩

end SemanalMain

namespace Mypyc

theorem error_overlap_cons_head {t0 : RType} {trest : List RType}
    (h : RType.error_overlap (.rtuple (t0 :: trest)) = true) :
    t0.error_overlap = true := by
  simp only [RType.error_overlap, RType.error_overlap.go, List.isEmpty_cons,
    Bool.not_false, Bool.true_and, Bool.and_eq_true] at h
  exact h.1

theorem findNonOverlap_some_not_overlap :
    ∀ (ts : List RType) (i : Nat) (item : RType) (j : Nat),
      findNonOverlap ts i = some (item, j) → item.error_overlap = false
  | [], i, item, j => by intro h; cases h
  | t :: ts, i, item, j => by
    intro h
    simp only [findNonOverlap] at h
    by_cases ho : t.error_overlap = true
    · rw [ho] at h
      simp only [Bool.not_true, Bool.false_eq_true, if_false] at h
      exact findNonOverlap_some_not_overlap ts (i + 1) item j h
    · have ho2 : t.error_overlap = false := by
        cases hv : t.error_overlap
        · rfl
        · exact absurd hv ho
      rw [ho2] at h
      simp only [Bool.not_false, if_true, Option.some_inj] at h
      cases h
      exact ho2

theorem findNonOverlap_exists :
    ∀ (ts : List RType) (i : Nat), RType.error_overlap.go ts = false →
      ∃ item j, findNonOverlap ts i = some (item, j)
  | [], i => by intro h; simp [RType.error_overlap.go] at h
  | t :: ts, i => by
    intro h
    simp only [RType.error_overlap.go, Bool.and_eq_false_iff] at h
    simp only [findNonOverlap]
    cases hv : t.error_overlap
    · exact ⟨t, i, by simp⟩
    · rcases h with h | h
      · exact absurd hv (by simp [h])
      · obtain ⟨item, j, hj⟩ := findNonOverlap_exists ts (i + 1) h
        exact ⟨item, j, by simpa using hj⟩

theorem tupleCheckCond_factorization :
    ∀ (fuel : Nat) (ts : List RType) (v : CVal) (pyErr : Bool),
      tupleUndefinedCheckCondAux cErrorValue CVal.beq fuel pyErr true ts v =
        (discrChainAux fuel ts v &&
          (!(RType.error_overlap (.rtuple ts)) || pyErr)) := by
  intro fuel
  induction fuel with
  | zero => intro ts v pyErr; rfl
  | succ fuel ih =>
    intro ts v pyErr
    match ts with
    | [] =>
      simp [tupleUndefinedCheckCondAux, discrChainAux, RType.error_overlap,
        cErrorValue]
    | t0 :: trest =>
      simp only [tupleUndefinedCheckCondAux, discrChainAux]
      cases heo : RType.error_overlap (.rtuple (t0 :: trest)) with
      | true =>
        simp only [if_true, Bool.not_true, Bool.false_or]
        match t0, heo with
        | .rtuple ts2, heo =>
          have h2 : RType.error_overlap (.rtuple ts2) = true :=
            error_overlap_cons_head heo
          simp only [ih ts2 (v.field 0) pyErr, h2, Bool.not_true, Bool.false_or]
        | .rprimitive n c u r cu o, heo =>
          have h2 := error_overlap_cons_head heo
          simp
        | .rinstance n c, heo =>
          have h2 := error_overlap_cons_head heo
          simp [RType.error_overlap] at h2
        | .runion items, heo =>
          have h2 := error_overlap_cons_head heo
          simp [RType.error_overlap] at h2
      | false =>
        simp only [Bool.false_eq_true, if_false, Bool.not_false, Bool.true_or,
          Bool.and_true]
        cases hfind : findNonOverlap (t0 :: trest) 0 with
        | none => rfl
        | some pr =>
          obtain ⟨item, i⟩ := pr
          have hio : item.error_overlap = false :=
            findNonOverlap_some_not_overlap _ _ _ _ hfind
          match item, hio with
          | .rtuple ts2, hio =>
            have h2 : RType.error_overlap (.rtuple ts2) = false := hio
            simp only [ih ts2 (v.field i) pyErr, h2, Bool.not_false,
              Bool.true_or, Bool.and_true]
          | .rprimitive n c u r cu o, hio => simp
          | .rinstance n c, hio => simp
          | .runion items2, hio => simp

/-- C5 counterexample: `(int, int)` has `error_overlap = false`, yet the check
emitted by `emit_error_check` is true at the value `(CPY_INT_TAG, 0)`, which
is different from the type's designated error value
`(CPY_INT_TAG, CPY_INT_TAG)` — the emitted check only inspects the
discriminator member, so it is not "true iff the value equals the type's
designated error sentinel". -/
theorem error_check_tuple_counterexample :
    RType.error_overlap (.rtuple [int_rprimitive, int_rprimitive]) = false ∧
    emitErrorCheckCond (.rtuple [int_rprimitive, int_rprimitive])
      (.tup [.prim 1, .prim 0]) false = true ∧
    (.tup [.prim 1, .prim 0] : CVal) ≠
      cErrorValue (.rtuple [int_rprimitive, int_rprimitive]) :=
  ⟨rfl, rfl, by decide⟩

def RType.isTupleType : RType → Bool
  | .rtuple _ => true
  | _ => false

/-- C5 amended: for every NON-tuple RType the claim holds as stated — error
overlap false means the check is true iff the value equals the designated
error value, error overlap true means the check is true iff the value equals
the error value AND an exception is pending.  For a tuple RType the emitted
check instead compares only the discriminator member chain (member 0 when all
members overlap, else the first member without error overlap) with that
member's designated undefined value, conjoined with `PyErr_Occurred()`
exactly when the tuple has error overlap. -/
theorem error_check_amended :
    (∀ (rtype : RType) (v : CVal) (pyErr : Bool),
      rtype.isTupleType = false → rtype.error_overlap = false →
      (emitErrorCheckCond rtype v pyErr = true ↔ v = cErrorValue rtype)) ∧
    (∀ (rtype : RType) (v : CVal) (pyErr : Bool),
      rtype.isTupleType = false → rtype.error_overlap = true →
      (emitErrorCheckCond rtype v pyErr = true ↔
        (v = cErrorValue rtype ∧ pyErr = true))) ∧
    (∀ (t0 : RType) (trest : List RType) (v : CVal) (pyErr : Bool),
      emitErrorCheckCond (.rtuple (t0 :: trest)) v pyErr =
        (discrChain (t0 :: trest) v &&
          (!(RType.error_overlap (.rtuple (t0 :: trest))) || pyErr))) := by
  refine ⟨?_, ?_, ?_⟩
  · intro rtype v pyErr htup hov
    match rtype, htup with
    | .rprimitive n c u r cu o, _ =>
      simp [emitErrorCheckCond, hov, CVal.beq_iff_cval]
    | .rinstance n c, _ =>
      simp [emitErrorCheckCond, hov, CVal.beq_iff_cval]
    | .runion items, _ =>
      simp [emitErrorCheckCond, hov, CVal.beq_iff_cval]
  · intro rtype v pyErr htup hov
    match rtype, htup with
    | .rprimitive n c u r cu o, _ =>
      simp [emitErrorCheckCond, hov, CVal.beq_iff_cval]
    | .rinstance n c, _ =>
      simp [emitErrorCheckCond, hov, CVal.beq_iff_cval]
    | .runion items, _ =>
      simp [emitErrorCheckCond, hov, CVal.beq_iff_cval]
  · intro t0 trest v pyErr
    exact tupleCheckCond_factorization (tupleDepth (t0 :: trest) + 1)
      (t0 :: trest) v pyErr

/-- Witness for the amended C5, instantiating all three parts at concrete
types and values. -/
theorem error_check_amended_witness :
    (emitErrorCheckCond int_rprimitive (.prim 5) false = true ↔
      (.prim 5 : CVal) = cErrorValue int_rprimitive) ∧
    (emitErrorCheckCond int64_rprimitive (.prim (-113)) true = true ↔
      ((.prim (-113) : CVal) = cErrorValue int64_rprimitive ∧ true = true)) ∧
    emitErrorCheckCond (.rtuple [int_rprimitive, bool_rprimitive])
        (.tup [.prim 1, .prim 0]) false =
      (discrChain [int_rprimitive, bool_rprimitive]
          (.tup [.prim 1, .prim 0]) &&
        (!(RType.error_overlap (.rtuple [int_rprimitive, bool_rprimitive]))
          || false)) :=
  ⟨error_check_amended.1 int_rprimitive (.prim 5) false rfl rfl,
   error_check_amended.2.1 int64_rprimitive (.prim (-113)) true rfl rfl,
   error_check_amended.2.2 int_rprimitive [bool_rprimitive]
     (.tup [.prim 1, .prim 0]) false⟩

theorem tupleStructFieldLines_go_length :
    ∀ (ts : List RType) (i : Nat),
      (tupleStructFieldLines.go ts i).length = ts.length
  | [], _ => rfl
  | t :: ts, i => by
    simp only [tupleStructFieldLines.go, List.length_cons]
    rw [tupleStructFieldLines_go_length ts (i + 1)]

theorem tupleCheckCondAux_depends_only_on_pick
    (ctcv : RType → CVal) (cmp : CVal → CVal → Bool) (fuel : Nat)
    (pyErr ce : Bool) (t0 : RType) (trest : List RType) (v w : CVal)
    (item : RType) (i : Nat)
    (hpick : (if RType.error_overlap (.rtuple (t0 :: trest)) then some (t0, 0)
              else findNonOverlap (t0 :: trest) 0) = some (item, i))
    (hfield : v.field i = w.field i) :
    tupleUndefinedCheckCondAux ctcv cmp (fuel + 1) pyErr ce (t0 :: trest) v =
    tupleUndefinedCheckCondAux ctcv cmp (fuel + 1) pyErr ce (t0 :: trest) w := by
  simp only [tupleUndefinedCheckCondAux]
  rw [hpick]
  cases item <;> simp [hfield]

/-- C6 counterexample: for the tuple type `(int64, int64)`, all of whose
members have error overlap, the generated struct contains exactly the two
member fields and no out-of-band flag field, and the emitted error check is
signaled through member 0's error value pattern together with the
pending-exception check (it is true at `(-113, 999)` with an exception
pending, where `999` is an arbitrary value of the second field). -/
theorem tuple_flag_field_counterexample :
    tupleCDeclaration [int64_rprimitive, int64_rprimitive] =
      ["#ifndef MYPYC_DECLARED_tuple_TPint64Pint64",
       "#define MYPYC_DECLARED_tuple_TPint64Pint64",
       "typedef struct tuple_TPint64Pint64 \x7b",
       "int64_t f0;", "int64_t f1;",
       "\x7d tuple_TPint64Pint64;",
       "static tuple_TPint64Pint64 tuple_undefined_Pint64Pint64 = \x7b -113, -113 \x7d;",
       "#endif", ""] ∧
    RType.error_overlap (.rtuple [int64_rprimitive, int64_rprimitive]) = true ∧
    emitErrorCheckCond (.rtuple [int64_rprimitive, int64_rprimitive])
      (.tup [.prim (-113), .prim 999]) true = true :=
  ⟨rfl, rfl, rfl⟩

/-- C6 amended: only the EMPTY tuple receives an explicit flag field
(`empty_struct_error_flag`); a non-empty tuple's struct has exactly one field
per member.  A non-empty tuple all of whose members have error overlap is
itself error-overlapping: its error state is signaled by member 0's error
value pattern disambiguated by the out-of-band pending-exception check (the
check can never fire without a pending exception, and depends on no field but
member 0).  For a tuple with at least one member without error overlap, the
first such member serves as the error discriminator: the check depends on no
other field. -/
theorem tuple_error_discriminator_amended :
    (tupleStructFieldLines [] = ["int empty_struct_error_flag;"]) ∧
    (∀ ts : List RType, ts ≠ [] →
      (tupleStructFieldLines ts).length = ts.length) ∧
    (∀ (t0 : RType) (trest : List RType) (v : CVal),
      RType.error_overlap (.rtuple (t0 :: trest)) = true →
      emitErrorCheckCond (.rtuple (t0 :: trest)) v false = false) ∧
    (∀ (t0 : RType) (trest : List RType) (v w : CVal) (pyErr : Bool),
      RType.error_overlap (.rtuple (t0 :: trest)) = true →
      v.field 0 = w.field 0 →
      emitErrorCheckCond (.rtuple (t0 :: trest)) v pyErr =
        emitErrorCheckCond (.rtuple (t0 :: trest)) w pyErr) ∧
    (∀ (t0 : RType) (trest : List RType) (v w : CVal) (pyErr : Bool)
      (item : RType) (i : Nat),
      RType.error_overlap (.rtuple (t0 :: trest)) = false →
      findNonOverlap (t0 :: trest) 0 = some (item, i) →
      v.field i = w.field i →
      emitErrorCheckCond (.rtuple (t0 :: trest)) v pyErr =
        emitErrorCheckCond (.rtuple (t0 :: trest)) w pyErr) ∧
    (∀ (t0 : RType) (trest : List RType),
      RType.error_overlap (.rtuple (t0 :: trest)) = false →
      ∃ item i, findNonOverlap (t0 :: trest) 0 = some (item, i) ∧
        item.error_overlap = false) := by
  refine ⟨rfl, ?_, ?_, ?_, ?_, ?_⟩
  · intro ts hne
    match ts, hne with
    | t :: ts, _ =>
      simp only [tupleStructFieldLines, List.isEmpty_cons, Bool.false_eq_true,
        if_false]
      exact tupleStructFieldLines_go_length (t :: ts) 0
  · intro t0 trest v hov
    show tupleUndefinedCheckCond (t0 :: trest) v cErrorValue CVal.beq false true
      = false
    unfold tupleUndefinedCheckCond
    rw [tupleCheckCond_factorization, hov]
    simp
  · intro t0 trest v w pyErr hov hfield
    show tupleUndefinedCheckCond (t0 :: trest) v cErrorValue CVal.beq pyErr true
      = tupleUndefinedCheckCond (t0 :: trest) w cErrorValue CVal.beq pyErr true
    unfold tupleUndefinedCheckCond
    exact tupleCheckCondAux_depends_only_on_pick cErrorValue CVal.beq
      (tupleDepth (t0 :: trest)) pyErr true t0 trest v w t0 0
      (by rw [hov]; simp) hfield
  · intro t0 trest v w pyErr item i hov hfind hfield
    show tupleUndefinedCheckCond (t0 :: trest) v cErrorValue CVal.beq pyErr true
      = tupleUndefinedCheckCond (t0 :: trest) w cErrorValue CVal.beq pyErr true
    unfold tupleUndefinedCheckCond
    exact tupleCheckCondAux_depends_only_on_pick cErrorValue CVal.beq
      (tupleDepth (t0 :: trest)) pyErr true t0 trest v w item i
      (by rw [hov]; simpa using hfind) hfield
  · intro t0 trest hov
    simp only [RType.error_overlap, List.isEmpty_cons, Bool.not_false,
      Bool.true_and] at hov
    obtain ⟨item, j, hj⟩ := findNonOverlap_exists (t0 :: trest) 0 hov
    exact ⟨item, j, hj, findNonOverlap_some_not_overlap _ _ _ _ hj⟩

/-- Witness for the amended C6 at concrete tuple types. -/
theorem tuple_error_discriminator_amended_witness :
    ((tupleStructFieldLines [int64_rprimitive, int64_rprimitive]).length =
      ([int64_rprimitive, int64_rprimitive] : List RType).length) ∧
    (emitErrorCheckCond (.rtuple [int64_rprimitive, int64_rprimitive])
      (.tup [.prim (-113), .prim 0]) false = false) ∧
    (emitErrorCheckCond (.rtuple [int64_rprimitive, int64_rprimitive])
        (.tup [.prim 7, .prim 1]) true =
      emitErrorCheckCond (.rtuple [int64_rprimitive, int64_rprimitive])
        (.tup [.prim 7, .prim 2]) true) ∧
    (emitErrorCheckCond (.rtuple [int64_rprimitive, bool_rprimitive])
        (.tup [.prim 5, .prim 2]) false =
      emitErrorCheckCond (.rtuple [int64_rprimitive, bool_rprimitive])
        (.tup [.prim 6, .prim 2]) false) ∧
    (∃ item i, findNonOverlap [int64_rprimitive, bool_rprimitive] 0 =
        some (item, i) ∧ item.error_overlap = false) :=
  ⟨tuple_error_discriminator_amended.2.1 [int64_rprimitive, int64_rprimitive]
      (by decide),
   tuple_error_discriminator_amended.2.2.1 int64_rprimitive [int64_rprimitive]
      (.tup [.prim (-113), .prim 0]) rfl,
   tuple_error_discriminator_amended.2.2.2.1 int64_rprimitive
      [int64_rprimitive] (.tup [.prim 7, .prim 1]) (.tup [.prim 7, .prim 2])
      true rfl rfl,
   tuple_error_discriminator_amended.2.2.2.2.1 int64_rprimitive
      [bool_rprimitive] (.tup [.prim 5, .prim 2]) (.tup [.prim 6, .prim 2])
      false bool_rprimitive 1 rfl rfl rfl,
   tuple_error_discriminator_amended.2.2.2.2.2 int64_rprimitive
      [bool_rprimitive] rfl⟩

theorem handlerAction_mem (st : EmitState) (error : ErrorHandler)
    (src dest : String) (typ : RType) (re : Bool) :
    handlerActionLine error dest ∈
      (emitCastErrorHandler st error src dest typ re).lines := by
  cases re <;> cases error <;>
    simp [emitCastErrorHandler, emitLine, handlerActionLine]

theorem castErr_typeError_mem (st : EmitState)
    (error : ErrorHandler) (src dest : String) (typ : RType)
    (hnt : error.isTracebackHandler = false) :
    ("CPy_TypeError(\"" ++ prettyName typ ++ "\", " ++ src ++ "); ") ∈
      (emitCastErrorHandler st error src dest typ true).lines := by
  cases error with
  | tracebackAndGotoHandler l sp mn tf tl =>
    simp [ErrorHandler.isTracebackHandler] at hnt
  | assignHandler => simp [emitCastErrorHandler, emitLine]
  | gotoHandler l => simp [emitCastErrorHandler, emitLine]
  | returnHandler v => simp [emitCastErrorHandler, emitLine]

/-- C7 counterexample: `int64` is accepted by `emit_unbox`, but the emitted
code ignores the configured failure policy: with a `GotoHandler` the output
contains no goto to the handler's label (no failure path at all), and the
output is byte-identical for any other handler.  Likewise, casting to an
unboxed tuple type ignores the configured handler (failure assigns NULL and
jumps to a local label), and `emit_unbox` rejects `TracebackAndGotoHandler`
outright with an assertion. -/
theorem unbox_failure_policy_counterexample :
    emitUnbox ⟨[], 0⟩ "cpy_r_x" "cpy_r_y" int64_rprimitive true
        (.gotoHandler "CPyL3") true false false =
      .ok ⟨["int64_t cpy_r_y;", "cpy_r_y = CPyLong_AsInt64(cpy_r_x);"], 0⟩ ∧
    "goto CPyL3;" ∉
      ["int64_t cpy_r_y;", "cpy_r_y = CPyLong_AsInt64(cpy_r_x);"] ∧
    emitUnbox ⟨[], 0⟩ "cpy_r_x" "cpy_r_y" int64_rprimitive true
        (.gotoHandler "CPyL3") true false false =
      emitUnbox ⟨[], 0⟩ "cpy_r_x" "cpy_r_y" int64_rprimitive true
        (.returnHandler "NULL") false false false ∧
    emitCast ⟨[], 0⟩ "src" "dst" (.rtuple [bool_rprimitive]) false
        (.gotoHandler "CPyL7") true false none true =
      emitCast ⟨[], 0⟩ "src" "dst" (.rtuple [bool_rprimitive]) false
        (.returnHandler "2") false false none true ∧
    emitUnbox ⟨[], 0⟩ "s" "d" int_rprimitive false
        (.tracebackAndGotoHandler "L" "p" "m" "f" 3) true false false =
      .error "assert isinstance(error, ReturnHandler)" :=
  ⟨rfl, by decide, rfl, rfl, rfl⟩

end Mypyc

namespace Mypyc

theorem mem_emitLine {l : String} {st : EmitState} (s : String)
    (h : l ∈ st.lines) : l ∈ (emitLine st s).lines := by
  simp only [emitLine, List.mem_append]
  exact Or.inl h

theorem mem_emitLabel {l : String} {st : EmitState} (s : String)
    (h : l ∈ st.lines) : l ∈ (emitLabel st s).lines := by
  simp only [emitLabel, List.mem_append]
  exact Or.inl h

theorem unionBody_handler_mem :
    ∀ (fuel : Nat) (st : EmitState) (src dest : String) (items : List RType)
      (typFull : RType) (dd : Bool) (err : ErrorHandler) (opt re : Bool)
      (r : EmitState),
      emitCastFuel.unionBody fuel st src dest items typFull dd err opt re
        = .ok r →
      handlerActionLine err dest ∈ r.lines := by
  intro fuel st src dest items typFull dd err opt re r hok
  match fuel with
  | 0 => cases hok
  | fuel + 1 =>
    simp only [emitCastFuel.unionBody] at hok
    split at hok
    · cases hok
    · cases hok
      exact mem_emitLabel _ (handlerAction_mem _ _ _ _ _ _)

theorem emitCast_handler_mem :
    ∀ (fuel : Nat) (st : EmitState) (src dest : String) (typ : RType)
      (dd : Bool) (error : ErrorHandler) (re opt : Bool)
      (stype : Option RType) (lk : Bool) (r : EmitState),
      castHasFailurePath typ = true →
      emitCastFuel fuel st src dest typ dd error re opt stype lk = .ok r →
      handlerActionLine error dest ∈ r.lines := by
  intro fuel st src dest typ dd error re opt stype lk r hpath hok
  match fuel with
  | 0 => cases hok
  | fuel + 1 =>
    simp only [emitCastFuel] at hok
    split at hok
    · cases hok
      exact mem_emitLine _ (handlerAction_mem _ _ _ _ _ _)
    · split at hok
      · cases hok
        exact mem_emitLine _ (handlerAction_mem _ _ _ _ _ _)
      · split at hok
        · cases hok
          exact mem_emitLine _ (handlerAction_mem _ _ _ _ _ _)
        · split at hok
          · cases hok
            exact mem_emitLine _ (handlerAction_mem _ _ _ _ _ _)
          · split at hok
            · cases hok
              exact mem_emitLine _ (handlerAction_mem _ _ _ _ _ _)
            · split at hok
              · cases hok
                exact mem_emitLine _ (handlerAction_mem _ _ _ _ _ _)
              · split at hok
                · -- object target: no failure path, excluded by hpath
                  exfalso
                  cases typ <;>
                    simp_all [castHasFailurePath, castCheckName,
                      is_list_rprimitive, is_dict_rprimitive,
                      is_set_rprimitive, is_str_rprimitive,
                      is_range_rprimitive, is_float_rprimitive,
                      is_int_rprimitive, is_fixed_width_rtype,
                      is_int64_rprimitive, is_int32_rprimitive,
                      is_bool_rprimitive, is_bit_rprimitive,
                      is_bytes_rprimitive, is_tuple_rprimitive,
                      is_none_rprimitive, is_object_rprimitive, isNamedPrim]
                · split at hok
                  · exact unionBody_handler_mem _ _ _ _ _ _ _ _ _ _ _ hok
                  · -- unboxed tuple target: excluded by hpath
                    exfalso
                    split at hok
                    · cases hok
                    · simp_all [castHasFailurePath, castCheckName,
                        is_list_rprimitive, is_dict_rprimitive,
                        is_set_rprimitive, is_str_rprimitive,
                        is_range_rprimitive, is_float_rprimitive,
                        is_int_rprimitive, is_fixed_width_rtype,
                        is_int64_rprimitive, is_int32_rprimitive,
                        is_bool_rprimitive, is_bit_rprimitive,
                        is_bytes_rprimitive, is_tuple_rprimitive,
                        is_none_rprimitive, is_object_rprimitive, isNamedPrim]
                  · cases hok

end Mypyc

namespace Mypyc

theorem mem_emitLine_self (st : EmitState) (l : String) :
    l ∈ (emitLine st l).lines := by
  simp [emitLine]

set_option maxHeartbeats 4000000 in
theorem emitUnbox_failure_mem :
    ∀ (fuel : Nat) (st : EmitState) (src dest : String) (typ : RType)
      (dd : Bool) (error : ErrorHandler) (opt borrow : Bool) (r : EmitState),
      unboxHonorsFailure typ = true →
      error.isTracebackHandler = false →
      emitUnboxFuel fuel st src dest typ dd error false opt borrow = .ok r →
      unboxFailureAction error typ dest ∈ r.lines := by
  intro fuel st src dest typ dd error opt borrow r hp hnt hok
  match fuel with
  | 0 => cases hok
  | fuel + 1 =>
    cases error with
    | tracebackAndGotoHandler l sp mn tf tl =>
      simp [ErrorHandler.isTracebackHandler] at hnt
    | assignHandler =>
      simp only [emitUnboxFuel] at hok
      split at hok
      · cases hok
        exact mem_emitLine _ (mem_emitLine_self _ _)
      · split at hok
        · cases hok
          exact mem_emitLine _ (mem_emitLine _ (mem_emitLine_self _ _))
        · split at hok
          · cases hok
            exact mem_emitLine _ (mem_emitLine _ (mem_emitLine_self _ _))
          · split at hok
            · exfalso
              cases typ <;>
                simp_all [unboxHonorsFailure, is_int_rprimitive,
                  is_short_int_rprimitive, is_bool_rprimitive,
                  is_bit_rprimitive, is_none_rprimitive, is_int64_rprimitive,
                  isNamedPrim]
            · split at hok
              · exfalso
                cases typ <;>
                  simp_all [unboxHonorsFailure, is_int_rprimitive,
                    is_short_int_rprimitive, is_bool_rprimitive,
                    is_bit_rprimitive, is_none_rprimitive, is_int32_rprimitive,
                    isNamedPrim]
              · split at hok
                · exfalso
                  cases typ <;>
                    simp_all [unboxHonorsFailure, is_int_rprimitive,
                      is_short_int_rprimitive, is_bool_rprimitive,
                      is_bit_rprimitive, is_none_rprimitive,
                      is_float_rprimitive, isNamedPrim]
                · split at hok
                  · exfalso
                    simp_all [unboxHonorsFailure, is_int_rprimitive,
                      is_short_int_rprimitive, is_bool_rprimitive,
                      is_bit_rprimitive, is_none_rprimitive, isNamedPrim]
                  · cases hok
    | gotoHandler lbl =>
      simp only [emitUnboxFuel] at hok
      split at hok
      · cases hok
        exact mem_emitLine _ (mem_emitLine_self _ _)
      · split at hok
        · cases hok
          exact mem_emitLine _ (mem_emitLine _ (mem_emitLine_self _ _))
        · split at hok
          · cases hok
            exact mem_emitLine _ (mem_emitLine _ (mem_emitLine_self _ _))
          · split at hok
            · exfalso
              cases typ <;>
                simp_all [unboxHonorsFailure, is_int_rprimitive,
                  is_short_int_rprimitive, is_bool_rprimitive,
                  is_bit_rprimitive, is_none_rprimitive, is_int64_rprimitive,
                  isNamedPrim]
            · split at hok
              · exfalso
                cases typ <;>
                  simp_all [unboxHonorsFailure, is_int_rprimitive,
                    is_short_int_rprimitive, is_bool_rprimitive,
                    is_bit_rprimitive, is_none_rprimitive, is_int32_rprimitive,
                    isNamedPrim]
              · split at hok
                · exfalso
                  cases typ <;>
                    simp_all [unboxHonorsFailure, is_int_rprimitive,
                      is_short_int_rprimitive, is_bool_rprimitive,
                      is_bit_rprimitive, is_none_rprimitive,
                      is_float_rprimitive, isNamedPrim]
                · split at hok
                  · exfalso
                    simp_all [unboxHonorsFailure, is_int_rprimitive,
                      is_short_int_rprimitive, is_bool_rprimitive,
                      is_bit_rprimitive, is_none_rprimitive, isNamedPrim]
                  · cases hok
    | returnHandler v =>
      simp only [emitUnboxFuel] at hok
      split at hok
      · cases hok
        exact mem_emitLine _ (mem_emitLine_self _ _)
      · split at hok
        · cases hok
          exact mem_emitLine _ (mem_emitLine _ (mem_emitLine_self _ _))
        · split at hok
          · cases hok
            exact mem_emitLine _ (mem_emitLine _ (mem_emitLine_self _ _))
          · split at hok
            · exfalso
              cases typ <;>
                simp_all [unboxHonorsFailure, is_int_rprimitive,
                  is_short_int_rprimitive, is_bool_rprimitive,
                  is_bit_rprimitive, is_none_rprimitive, is_int64_rprimitive,
                  isNamedPrim]
            · split at hok
              · exfalso
                cases typ <;>
                  simp_all [unboxHonorsFailure, is_int_rprimitive,
                    is_short_int_rprimitive, is_bool_rprimitive,
                    is_bit_rprimitive, is_none_rprimitive, is_int32_rprimitive,
                    isNamedPrim]
              · split at hok
                · exfalso
                  cases typ <;>
                    simp_all [unboxHonorsFailure, is_int_rprimitive,
                      is_short_int_rprimitive, is_bool_rprimitive,
                      is_bit_rprimitive, is_none_rprimitive,
                      is_float_rprimitive, isNamedPrim]
                · split at hok
                  · exfalso
                    simp_all [unboxHonorsFailure, is_int_rprimitive,
                      is_short_int_rprimitive, is_bool_rprimitive,
                      is_bit_rprimitive, is_none_rprimitive, isNamedPrim]
                  · cases hok

theorem tupleBody_ignores_error :
    ∀ (fuel : Nat) (st : EmitState) (src dest : String) (ts : List RType)
      (typFull : RType) (dd : Bool) (e1 e2 : ErrorHandler)
      (stype : Option RType),
      emitCastFuel.tupleBody fuel st src dest ts typFull dd e1 stype =
        emitCastFuel.tupleBody fuel st src dest ts typFull dd e2 stype := by
  intro fuel st src dest ts typFull dd e1 e2 stype
  match fuel with
  | 0 => rfl
  | fuel + 1 => simp only [emitCastFuel.tupleBody]

end Mypyc

namespace Mypyc

set_option maxHeartbeats 2000000 in
theorem unbox_rejects_traceback :
    ∀ (st : EmitState) (src dest : String) (typ : RType) (dd : Bool)
      (lab sp mn tf : String) (tl : Nat) (re opt borrow : Bool),
      emitUnbox st src dest typ dd
          (.tracebackAndGotoHandler lab sp mn tf tl) re opt borrow =
        .error "assert isinstance(error, ReturnHandler)" := by
  intro st src dest typ dd lab sp mn tf tl re opt borrow
  cases typ <;> rfl

set_option maxHeartbeats 4000000 in
theorem unbox_fixed_width_ignores_policy :
    ∀ (st : EmitState) (src dest : String) (typ : RType) (dd : Bool)
      (e1 e2 : ErrorHandler) (re1 re2 opt borrow : Bool),
      (is_int64_rprimitive typ || is_int32_rprimitive typ ||
        is_float_rprimitive typ) = true →
      e1.isTracebackHandler = false → e2.isTracebackHandler = false →
      emitUnbox st src dest typ dd e1 re1 opt borrow =
        emitUnbox st src dest typ dd e2 re2 opt borrow := by
  intro st src dest typ dd e1 e2 re1 re2 opt borrow hfix h1 h2
  cases typ with
  | rprimitive n c u rc cu ov =>
    simp only [is_int64_rprimitive, is_int32_rprimitive, is_float_rprimitive,
      isNamedPrim, Bool.or_eq_true, beq_iff_eq] at hfix
    rcases hfix with (rfl | rfl) | rfl <;>
      (cases e1 <;> cases e2 <;>
        (try (simp [ErrorHandler.isTracebackHandler] at h1)) <;>
        (try (simp [ErrorHandler.isTracebackHandler] at h2)) <;>
        rfl)
  | rtuple ts =>
    simp [is_int64_rprimitive, is_int32_rprimitive, is_float_rprimitive,
      isNamedPrim] at hfix
  | rinstance cn cc =>
    simp [is_int64_rprimitive, is_int32_rprimitive, is_float_rprimitive,
      isNamedPrim] at hfix
  | runion items =>
    simp [is_int64_rprimitive, is_int32_rprimitive, is_float_rprimitive,
      isNamedPrim] at hfix

/-- C7 amended: for `emit_cast` the failure policy is selectable per call
site among all four handlers, and the configured handler's action is emitted
on the failure path for every target type whose generated cast can fail
(checked primitives, bytes, the boxed tuple, class instances, None, unions);
the raise-and-propagate behavior is an orthogonal `raise_exception` flag that
prepends a `CPy_TypeError` call.  However, casting to an UNBOXED tuple type
ignores the configured handler (failure assigns NULL and jumps to a local
label), and `emit_unbox` accepts only AssignHandler/GotoHandler/ReturnHandler
(`TracebackAndGotoHandler` trips an assertion); the configured action is
emitted for tagged int, bool/bit, None (and around tuple member conversions),
but for fixed-width int and float targets the failure policy is ignored
entirely: no failure code is emitted at all. -/
theorem failure_policy_amended :
    (∀ (st : EmitState) (error : ErrorHandler) (src dest : String)
      (typ : RType) (re : Bool),
      handlerActionLine error dest ∈
        (emitCastErrorHandler st error src dest typ re).lines) ∧
    (∀ (st : EmitState) (error : ErrorHandler) (src dest : String)
      (typ : RType), error.isTracebackHandler = false →
      ("CPy_TypeError(\"" ++ prettyName typ ++ "\", " ++ src ++ "); ") ∈
        (emitCastErrorHandler st error src dest typ true).lines) ∧
    (∀ (st : EmitState) (src dest : String) (typ : RType) (dd : Bool)
      (error : ErrorHandler) (re opt : Bool) (stype : Option RType)
      (lk : Bool) (r : EmitState),
      castHasFailurePath typ = true →
      emitCast st src dest typ dd error re opt stype lk = .ok r →
      handlerActionLine error dest ∈ r.lines) ∧
    (∀ (st : EmitState) (src dest : String) (ts : List RType) (dd : Bool)
      (e1 e2 : ErrorHandler) (re1 re2 lk : Bool),
      emitCast st src dest (.rtuple ts) dd e1 re1 false none lk =
        emitCast st src dest (.rtuple ts) dd e2 re2 false none lk) ∧
    (∀ (st : EmitState) (src dest : String) (typ : RType) (dd : Bool)
      (error : ErrorHandler) (opt borrow : Bool) (r : EmitState),
      unboxHonorsFailure typ = true → error.isTracebackHandler = false →
      emitUnbox st src dest typ dd error false opt borrow = .ok r →
      unboxFailureAction error typ dest ∈ r.lines) ∧
    (∃ r, emitUnbox ⟨[], 0⟩ "src" "dst"
        (.rtuple [int_rprimitive, bool_rprimitive]) true
        (.gotoHandler "CPyL9") true false false = .ok r ∧
      ("CPy_TypeError(\"tuple[builtins.int, builtins.bool]\", src); goto CPyL9;")
        ∈ r.lines) ∧
    (∀ (st : EmitState) (src dest : String) (typ : RType) (dd : Bool)
      (e1 e2 : ErrorHandler) (re1 re2 opt borrow : Bool),
      (is_int64_rprimitive typ || is_int32_rprimitive typ ||
        is_float_rprimitive typ) = true →
      e1.isTracebackHandler = false → e2.isTracebackHandler = false →
      emitUnbox st src dest typ dd e1 re1 opt borrow =
        emitUnbox st src dest typ dd e2 re2 opt borrow) ∧
    (∀ (st : EmitState) (src dest : String) (typ : RType) (dd : Bool)
      (lab sp mn tf : String) (tl : Nat) (re opt borrow : Bool),
      emitUnbox st src dest typ dd
          (.tracebackAndGotoHandler lab sp mn tf tl) re opt borrow =
        .error "assert isinstance(error, ReturnHandler)") := by
  refine ⟨?_, ?_, ?_, ?_, ?_, ?_, ?_, ?_⟩
  · intro st error src dest typ re
    exact handlerAction_mem st error src dest typ re
  · intro st error src dest typ hnt
    exact castErr_typeError_mem st error src dest typ hnt
  · intro st src dest typ dd error re opt stype lk r hp hok
    exact emitCast_handler_mem (rtypeFuel typ) st src dest typ dd error re opt
      stype lk r hp hok
  · intro st src dest ts dd e1 e2 re1 re2 lk
    show emitCastFuel.tupleBody (rtypeFuel.go ts + 7) st src dest ts
        (.rtuple ts) dd e1 none =
      emitCastFuel.tupleBody (rtypeFuel.go ts + 7) st src dest ts
        (.rtuple ts) dd e2 none
    exact tupleBody_ignores_error _ _ _ _ _ _ _ _ _ _
  · intro st src dest typ dd error opt borrow r hp hnt hok
    exact emitUnbox_failure_mem (rtypeFuel typ) st src dest typ dd error opt
      borrow r hp hnt hok
  · exact ⟨_, rfl, by decide⟩
  · exact unbox_fixed_width_ignores_policy
  · exact unbox_rejects_traceback

/-- Witness for the amended C7, instantiating the parts at concrete call
sites. -/
theorem failure_policy_amended_witness :
    handlerActionLine (.returnHandler "NULL") "cpy_r_y" ∈
      (emitCastErrorHandler ⟨[], 0⟩ (.returnHandler "NULL") "cpy_r_x"
        "cpy_r_y" int_rprimitive false).lines ∧
    ("CPy_TypeError(\"builtins.str\", src); ") ∈
      (emitCastErrorHandler ⟨[], 0⟩ (.gotoHandler "CPyL7") "src" "dst"
        str_rprimitive true).lines ∧
    handlerActionLine (.gotoHandler "CPyL7") "dst" ∈
      (⟨["PyObject *dst;", "if (likely(PyUnicode_Check(src)))",
         "    dst = src;", "else \x7b",
         "CPy_TypeError(\"builtins.str\", src); ", "goto CPyL7;", "\x7d"],
        0⟩ : EmitState).lines ∧
    unboxFailureAction (.gotoHandler "CPyL3") int_rprimitive "cpy_r_y" ∈
      (⟨["if (likely(PyLong_Check(cpy_r_x)))",
         "    cpy_r_y = CPyTagged_FromObject(cpy_r_x);", "else \x7b",
         "goto CPyL3;", "\x7d"], 0⟩ : EmitState).lines ∧
    emitUnbox ⟨[], 0⟩ "s" "d" int64_rprimitive false (.gotoHandler "L") true
        false false =
      emitUnbox ⟨[], 0⟩ "s" "d" int64_rprimitive false .assignHandler false
        false false ∧
    emitUnbox ⟨[], 0⟩ "s" "d" float_rprimitive false
        (.tracebackAndGotoHandler "L" "p" "m" "f" 3) true false false =
      .error "assert isinstance(error, ReturnHandler)" :=
  ⟨failure_policy_amended.1 ⟨[], 0⟩ (.returnHandler "NULL") "cpy_r_x"
      "cpy_r_y" int_rprimitive false,
   failure_policy_amended.2.1 ⟨[], 0⟩ (.gotoHandler "CPyL7") "src" "dst"
      str_rprimitive rfl,
   failure_policy_amended.2.2.1 ⟨[], 0⟩ "src" "dst" str_rprimitive true
      (.gotoHandler "CPyL7") true false none true
      ⟨["PyObject *dst;", "if (likely(PyUnicode_Check(src)))",
        "    dst = src;", "else \x7b",
        "CPy_TypeError(\"builtins.str\", src); ", "goto CPyL7;", "\x7d"], 0⟩
      rfl rfl,
   failure_policy_amended.2.2.2.2.1 ⟨[], 0⟩ "cpy_r_x" "cpy_r_y"
      int_rprimitive false (.gotoHandler "CPyL3") false false
      ⟨["if (likely(PyLong_Check(cpy_r_x)))",
        "    cpy_r_y = CPyTagged_FromObject(cpy_r_x);", "else \x7b",
        "goto CPyL3;", "\x7d"], 0⟩ rfl rfl rfl,
   failure_policy_amended.2.2.2.2.2.2.1 ⟨[], 0⟩ "s" "d" int64_rprimitive
      false (.gotoHandler "L") .assignHandler true false false false rfl rfl
      rfl,
   failure_policy_amended.2.2.2.2.2.2.2 ⟨[], 0⟩ "s" "d" float_rprimitive
      false "L" "p" "m" "f" 3 true false false⟩

end Mypyc


/-! ## Theorems: generator methods (claims C8, C10) -/

namespace Generator

/-- C8: the emitted close() throws GeneratorExit into the suspended body; if
the body then raises GeneratorExit or StopIteration, close() returns None
normally; if the body raises any other exception, close() re-raises that
exception unchanged; and if the body returns without raising, close() raises
RuntimeError "generator ignored GeneratorExit". -/
theorem close_cancellation_semantics :
    ((addCloseToGeneratorClass.getD 0 []).all fun inst =>
      match inst with
      | GenInst.methodCallThrow e _ => e == ExcClass.generatorExit
      | _ => true) = true ∧
    closeBehavior (.raised .generatorExit) = .returnsNone ∧
    closeBehavior (.raised .stopIteration) = .returnsNone ∧
    (∀ n : String,
      closeBehavior (.raised (.other n)) = .propagates (.other n)) ∧
    closeBehavior .returned =
      .raisesRuntimeError "generator ignored GeneratorExit" := by
  refine ⟨by decide, rfl, rfl, fun n => ?_, rfl⟩
  rfl

/-- C10: `__next__` and `send` call the same shared helper
`__mypyc_generator_helper__` with `self` and `Py_None` in the exception
type/value/traceback slots; they agree on the first four arguments, and the
only difference is the final resume-value argument (`Py_None` for `__next__`,
the caller's `arg` for `send`): substituting `Py_None` for the caller's
argument makes `send`'s call identical to `__next__`'s. -/
theorem next_is_send_of_none :
    addNextToGeneratorClass.callee = generatorHelperName ∧
    addSendToGeneratorClass.callee = generatorHelperName ∧
    addNextToGeneratorClass.args.take 4 = addSendToGeneratorClass.args.take 4 ∧
    addNextToGeneratorClass.args.take 4 =
      [.selfArg, .noneObj, .noneObj, .noneObj] ∧
    addNextToGeneratorClass.args.getD 4 .selfArg = .noneObj ∧
    addSendToGeneratorClass.args.getD 4 .selfArg = .callerArg "arg" ∧
    addSendToGeneratorClass.args.map substNone = addNextToGeneratorClass.args := by
  decide

end Generator


/-! ## Theorems: box/unbox round trip (claim C9) -/

namespace Mypyc

theorem boxVal_boxed :
    ∀ (t : RType) (o : PyObj), wfRType t = true → RType.is_unboxed t = false →
      boxVal t (.pobj o) = o
  | .rprimitive n c u rc cu ov, o => by
    intro hwf hu
    rw [show RType.is_unboxed (.rprimitive n c u rc cu ov) = u from rfl] at hu
    simp only [wfRType] at hwf
    by_cases hbig : (n == "builtins.int" || n == "short_int" ||
        n == "builtins.bool" || n == "bit" || n == "builtins.None" ||
        n == "int64" || n == "int32" || n == "builtins.float") = true
    · rw [if_pos hbig] at hwf
      rw [hwf] at hu
      exact absurd hu (by simp)
    · simp only [Bool.or_eq_true, not_or, Bool.not_eq_true] at hbig
      obtain ⟨⟨⟨⟨⟨⟨⟨h1, h2⟩, h3⟩, h4⟩, h5⟩, h6⟩, h7⟩, h8⟩ := hbig
      simp [boxVal, h1, h2, h3, h4, h5, h6, h7, h8]
  | .rtuple ts, o => by
    intro _ hu
    exact absurd hu (by simp [RType.is_unboxed])
  | .rinstance cn conc, o => by intro _ _; rfl
  | .runion items, o => by intro _ _; rfl

theorem boxValGo_length :
    ∀ (ts : List RType) (fs : List CVal), Representable.go ts fs = true →
      (boxVal.go ts fs).length = ts.length
  | [], [] => by intro _; rfl
  | [], f :: fs => by intro h; simp [Representable.go] at h
  | t :: ts, [] => by intro h; simp [Representable.go] at h
  | t :: ts, f :: fs => by
    intro h
    simp only [Representable.go, Bool.and_eq_true] at h
    simp [boxVal.go, boxValGo_length ts fs h.2]

theorem unbox_boxVal_eq :
    ∀ (t : RType) (v : CVal), wfRType t = true → RType.is_unboxed t = true →
      Representable t v = true → unboxVal t (boxVal t v) = some v
  | .rprimitive n c u rc cu ov, .prim i => by
    intro hwf hu hr
    rw [show Representable (.rprimitive n c u rc cu ov) (.prim i) =
      (if n == "builtins.int" || n == "short_int" then true
       else if n == "builtins.bool" || n == "bit" then i == 0 || i == 1
       else if n == "builtins.None" then i == 1
       else if n == "int64" then decide (-(2 ^ 63) ≤ i ∧ i < 2 ^ 63)
       else if n == "int32" then decide (-(2 ^ 31) ≤ i ∧ i < 2 ^ 31)
       else if n == "builtins.float" then true
       else false) from rfl] at hr
    by_cases h1 : (n == "builtins.int" || n == "short_int") = true
    · simp [boxVal, unboxVal, h1]
    · rw [if_neg h1] at hr
      by_cases h2 : (n == "builtins.bool" || n == "bit") = true
      · rw [if_pos h2] at hr
        simp only [Bool.or_eq_true, beq_iff_eq] at hr
        rcases hr with h | h <;> subst h <;> simp [boxVal, unboxVal, h1, h2]
      · rw [if_neg h2] at hr
        by_cases h3 : (n == "builtins.None") = true
        · rw [if_pos h3] at hr
          simp only [beq_iff_eq] at hr
          subst hr
          simp [boxVal, unboxVal, h1, h2, h3]
        · rw [if_neg h3] at hr
          by_cases h4 : (n == "int64") = true
          · rw [if_pos h4] at hr
            have hn : n = "int64" := by simpa using h4
            subst hn
            have hx := of_decide_eq_true hr
            norm_num at hx
            simp [boxVal, unboxVal]
            exact ⟨by omega, by omega⟩
          · rw [if_neg h4] at hr
            by_cases h5 : (n == "int32") = true
            · rw [if_pos h5] at hr
              have hn : n = "int32" := by simpa using h5
              subst hn
              have hx := of_decide_eq_true hr
              norm_num at hx
              simp [boxVal, unboxVal]
              exact ⟨by omega, by omega⟩
            · rw [if_neg h5] at hr
              by_cases h6 : (n == "builtins.float") = true
              · simp [boxVal, unboxVal, h1, h2, h3, h4, h5, h6]
              · rw [if_neg h6] at hr
                exact absurd hr (by simp)
  | .rprimitive n c u rc cu ov, .pobj o => by
    intro hwf hu hr
    rw [show RType.is_unboxed (.rprimitive n c u rc cu ov) = u from rfl] at hu
    rw [show Representable (.rprimitive n c u rc cu ov) (.pobj o) =
      (!u && pyTypeMatches (.rprimitive n c u rc cu ov) o) from rfl] at hr
    rw [hu] at hr
    exact absurd hr (by simp)
  | .rprimitive n c u rc cu ov, .tup fs => by
    intro _ _ hr
    exact absurd hr (by simp [Representable])
  | .rtuple ts, .prim i => by
    intro _ _ hr
    exact absurd hr (by simp [Representable])
  | .rtuple ts, .pobj o => by
    intro _ _ hr
    exact absurd hr (by simp [Representable])
  | .rtuple ts, .tup fs => by
    intro hwf hu hr
    rw [show wfRType (.rtuple ts) = wfRType.go ts from rfl] at hwf
    rw [show Representable (.rtuple ts) (.tup fs) = Representable.go ts fs
      from rfl] at hr
    rw [show boxVal (.rtuple ts) (.tup fs) = .pyTuple (boxVal.go ts fs)
      from rfl]
    rw [show unboxVal (.rtuple ts) (.pyTuple (boxVal.go ts fs)) =
      (if (boxVal.go ts fs).length == ts.length then
        match unboxVal.go ts (boxVal.go ts fs) with
        | some fs2 => some (.tup fs2)
        | none => none
      else none) from rfl]
    rw [boxValGo_length ts fs hr]
    rw [if_pos (by simp)]
    rw [go ts fs hwf hr]
  | .rinstance cn conc, v => by
    intro _ hu _
    exact absurd hu (by simp [RType.is_unboxed])
  | .runion items, v => by
    intro _ hu _
    exact absurd hu (by simp [RType.is_unboxed])
where go : ∀ (ts : List RType) (fs : List CVal), wfRType.go ts = true →
    Representable.go ts fs = true →
    unboxVal.go ts (boxVal.go ts fs) = some fs
  | [], [] => by intro _ _; rfl
  | [], f :: fs => by intro _ h; simp [Representable.go] at h
  | t :: ts, [] => by intro _ h; simp [Representable.go] at h
  | t :: ts, f :: fs => by
    intro hwf hr
    simp only [wfRType.go, Bool.and_eq_true] at hwf
    simp only [Representable.go, Bool.and_eq_true] at hr
    rw [show boxVal.go (t :: ts) (f :: fs) =
      boxVal t f :: boxVal.go ts fs from rfl]
    rw [show unboxVal.go (t :: ts) (boxVal t f :: boxVal.go ts fs) =
      (match (if t.is_unboxed then unboxVal t (boxVal t f)
              else if pyTypeMatches t (boxVal t f) then
                some (.pobj (boxVal t f)) else none) with
       | some f2 =>
         match unboxVal.go ts (boxVal.go ts fs) with
         | some fs2 => some (f2 :: fs2)
         | none => none
       | none => none) from rfl]
    by_cases hub : RType.is_unboxed t = true
    · rw [if_pos hub, unbox_boxVal_eq t f hwf.1 hub hr.1,
        go ts fs hwf.2 hr.2]
    · have hub2 : RType.is_unboxed t = false := by
        cases h : RType.is_unboxed t
        · rfl
        · exact absurd h hub
      rw [if_neg (by rw [hub2]; exact Bool.false_ne_true)]
      have hpo : ∃ o, f = .pobj o ∧ pyTypeMatches t o = true := by
        cases t with
        | rprimitive n2 c2 u2 rc2 cu2 ov2 =>
          cases f with
          | prim j =>
            rw [show RType.is_unboxed (.rprimitive n2 c2 u2 rc2 cu2 ov2) = u2
              from rfl] at hub2
            have := hr.1
            rw [show Representable (.rprimitive n2 c2 u2 rc2 cu2 ov2) (.prim j) =
              (if n2 == "builtins.int" || n2 == "short_int" then true
               else if n2 == "builtins.bool" || n2 == "bit" then j == 0 || j == 1
               else if n2 == "builtins.None" then j == 1
               else if n2 == "int64" then decide (-(2 ^ 63) ≤ j ∧ j < 2 ^ 63)
               else if n2 == "int32" then decide (-(2 ^ 31) ≤ j ∧ j < 2 ^ 31)
               else if n2 == "builtins.float" then true
               else false) from rfl] at this
            have hwf1 := hwf.1
            simp only [wfRType] at hwf1
            by_cases hbig : (n2 == "builtins.int" || n2 == "short_int" ||
                n2 == "builtins.bool" || n2 == "bit" || n2 == "builtins.None" ||
                n2 == "int64" || n2 == "int32" || n2 == "builtins.float") = true
            · rw [if_pos hbig] at hwf1
              rw [hwf1] at hub2
              exact absurd hub2 (by simp)
            · simp only [Bool.or_eq_true, not_or, Bool.not_eq_true] at hbig
              obtain ⟨⟨⟨⟨⟨⟨⟨g1, g2⟩, g3⟩, g4⟩, g5⟩, g6⟩, g7⟩, g8⟩ := hbig
              rw [if_neg (by simp [g1, g2]), if_neg (by simp [g3, g4]),
                if_neg (by simp [g5]), if_neg (by simp [g6]),
                if_neg (by simp [g7]), if_neg (by simp [g8])] at this
              exact absurd this (by simp)
          | pobj o =>
            have := hr.1
            rw [show Representable (.rprimitive n2 c2 u2 rc2 cu2 ov2) (.pobj o) =
              (!u2 && pyTypeMatches (.rprimitive n2 c2 u2 rc2 cu2 ov2) o)
              from rfl] at this
            simp only [Bool.and_eq_true] at this
            exact ⟨o, rfl, this.2⟩
          | tup gs =>
            have := hr.1
            exact absurd this (by simp [Representable])
        | rtuple ts2 =>
          exact absurd hub2 (by simp [RType.is_unboxed])
        | rinstance cn2 conc2 =>
          cases f with
          | prim j => exact absurd hr.1 (by simp [Representable])
          | pobj o =>
            have := hr.1
            rw [show Representable (.rinstance cn2 conc2) (.pobj o) =
              pyTypeMatches (.rinstance cn2 conc2) o from rfl] at this
            exact ⟨o, rfl, this⟩
          | tup gs => exact absurd hr.1 (by simp [Representable])
        | runion items2 =>
          exact absurd hr.1 (by simp [Representable])
      obtain ⟨o, hfo, hm⟩ := hpo
      subst hfo
      rw [boxVal_boxed t o hwf.1 hub2, if_pos hm, go ts fs hwf.2 hr.2]

/-- C9: for every well-formed representation type T that is not
object-identity-only (T is unboxed, so emit_box performs a conversion rather
than its trivial already-boxed assignment) and every representable raw value
v of T, the conversion emitted by emit_unbox applied to the result of the
conversion emitted by emit_box yields v again: unbox(box(v, T), T) == v. -/
theorem box_roundtrip (t : RType) (v : CVal) (hwf : wfRType t = true)
    (hub : RType.is_unboxed t = true) (hrep : Representable t v = true) :
    unboxVal t (boxVal t v) = some v :=
  unbox_boxVal_eq t v hwf hub hrep

theorem box_roundtrip_witness :
    wfRType (.rtuple [int64_rprimitive, bool_rprimitive, str_rprimitive])
      = true ∧
    RType.is_unboxed
      (.rtuple [int64_rprimitive, bool_rprimitive, str_rprimitive]) = true ∧
    Representable (.rtuple [int64_rprimitive, bool_rprimitive, str_rprimitive])
      (.tup [.prim 5, .prim 0, .pobj (.obj "builtins.str" 3)]) = true ∧
    unboxVal (.rtuple [int64_rprimitive, bool_rprimitive, str_rprimitive])
      (boxVal (.rtuple [int64_rprimitive, bool_rprimitive, str_rprimitive])
        (.tup [.prim 5, .prim 0, .pobj (.obj "builtins.str" 3)]))
      = some (.tup [.prim 5, .prim 0, .pobj (.obj "builtins.str" 3)]) :=
  ⟨by decide, by decide, by decide,
   box_roundtrip _ _ (by decide) (by decide) (by decide)⟩

end Mypyc
